import Mathlib

/-!
Shallow embedding of the BoundsCheck value-range analysis
(src/value_range/VariableRange.h and src/value_range/value_range.cpp).

Machine integers are modelled as `Int` with the saturation points
`INT_MIN`/`INT_MAX` made explicit exactly where the C++ code clamps
(`checkUnderOverFlow`).  Aborting paths (`exit(1)`, failed `assert`) are
modelled with `Option`: `none` means the analysis aborts.  The analysis
pass itself is embedded as an executable fixed-point engine over a small
IR mirroring the LLVM subset the pass consumes.
-/

/-! ## Interval domain (VariableRange.h) -/

def INT_MIN : Int := -2147483648

def INT_MAX : Int := 2147483647

/-- Struct that represents the variable range; by default the range is
[INT_MIN, INT_MAX], mirroring the default member initializers. -/
structure VariableRange where
  min_value : Int := INT_MIN
  max_value : Int := INT_MAX
deriving DecidableEq, Repr

/-- Arithmetic opcode fed to `checkUnderOverFlow` (the C++ code passes a
`char`; only these four values are ever passed, the `default` branch of the
switch aborts and is unreachable from the pass). -/
inductive ArithOp where
  | add
  | sub
  | mul
  | div
deriving DecidableEq, Repr

/-- Embedding of `outOfRange`: determines if a range exceeds the bounds of
an array. -/
def outOfRange (range : VariableRange) (array_size : Int) : Bool :=
  if range.max_value < 0 then
    true
  else if range.min_value ≥ array_size then
    true
  else
    false

/-- Embedding of `checkUnderOverFlow`: computes `lhs op rhs` in wide
(`long long`) arithmetic and clamps to `INT_MAX`/`INT_MIN` on
overflow/underflow.  C++ integer division truncates toward zero, hence
`Int.tdiv`.  A zero divisor returns the dividend. -/
def checkUnderOverFlow (lhs rhs : Int) (operation : ArithOp) : Int :=
  match operation with
  | .add =>
      if lhs + rhs > INT_MAX then INT_MAX
      else if lhs + rhs < INT_MIN then INT_MIN
      else lhs + rhs
  | .sub =>
      if lhs - rhs > INT_MAX then INT_MAX
      else if lhs - rhs < INT_MIN then INT_MIN
      else lhs - rhs
  | .mul =>
      if lhs * rhs > INT_MAX then INT_MAX
      else if lhs * rhs < INT_MIN then INT_MIN
      else lhs * rhs
  | .div =>
      if rhs = 0 then lhs
      else if Int.tdiv lhs rhs > INT_MAX then INT_MAX
      else if Int.tdiv lhs rhs < INT_MIN then INT_MIN
      else Int.tdiv lhs rhs

/-- Embedding of `unionRange` (interval hull of two ranges). -/
def unionRange (lhs rhs : VariableRange) : VariableRange :=
  { min_value := min lhs.min_value rhs.min_value
    max_value := max lhs.max_value rhs.max_value }

/-- Embedding of `checkAllCombinations`: scans the op applied to the four
corners, and (for division) additionally the corners against divisor -1
when the divisor range straddles -1, ELSE the corners against divisor 1
when it straddles 1, faithfully keeping the `else if` of the source. -/
def checkAllCombinations (lhs rhs : VariableRange) (op : ArithOp) : VariableRange :=
  let m0 : Int := INT_MAX
  let m1 := min m0 (checkUnderOverFlow lhs.min_value rhs.min_value op)
  let m2 := min m1 (checkUnderOverFlow lhs.min_value rhs.max_value op)
  let m3 := min m2 (checkUnderOverFlow lhs.max_value rhs.min_value op)
  let m4 := min m3 (checkUnderOverFlow lhs.max_value rhs.max_value op)
  let m5 :=
    if op = .div ∧ rhs.min_value < -1 ∧ -1 < rhs.max_value then
      min (min m4 (checkUnderOverFlow lhs.min_value (-1) op))
        (checkUnderOverFlow lhs.max_value (-1) op)
    else if op = .div ∧ rhs.min_value < 1 ∧ 1 < rhs.max_value then
      min (min m4 (checkUnderOverFlow lhs.min_value 1 op))
        (checkUnderOverFlow lhs.max_value 1 op)
    else m4
  let x0 : Int := INT_MIN
  let x1 := max x0 (checkUnderOverFlow lhs.min_value rhs.min_value op)
  let x2 := max x1 (checkUnderOverFlow lhs.min_value rhs.max_value op)
  let x3 := max x2 (checkUnderOverFlow lhs.max_value rhs.min_value op)
  let x4 := max x3 (checkUnderOverFlow lhs.max_value rhs.max_value op)
  let x5 :=
    if op = .div ∧ rhs.min_value < -1 ∧ -1 < rhs.max_value then
      max (max x4 (checkUnderOverFlow lhs.min_value (-1) op))
        (checkUnderOverFlow lhs.max_value (-1) op)
    else if op = .div ∧ rhs.min_value < 1 ∧ 1 < rhs.max_value then
      max (max x4 (checkUnderOverFlow lhs.min_value 1 op))
        (checkUnderOverFlow lhs.max_value 1 op)
    else x4
  { min_value := m5, max_value := x5 }

/-- Embedding of `addRanges`. -/
def addRanges (lhs rhs : VariableRange) : VariableRange :=
  checkAllCombinations lhs rhs .add

/-- Embedding of `subRanges`. -/
def subRanges (lhs rhs : VariableRange) : VariableRange :=
  checkAllCombinations lhs rhs .sub

/-- Embedding of `multRanges`. -/
def multRanges (lhs rhs : VariableRange) : VariableRange :=
  checkAllCombinations lhs rhs .mul

/-- Embedding of `divRanges`: dividing by the exact interval [0, 0] aborts
the analysis (`exit(1)`), modelled as `none`. -/
def divRanges (lhs rhs : VariableRange) : Option VariableRange :=
  if rhs.min_value = 0 ∧ rhs.max_value = 0 then
    none
  else
    some (checkAllCombinations lhs rhs .div)

/-- Embedding of `validate`: min is less than or equal to max. -/
def validate (range : VariableRange) : Bool :=
  range.max_value ≥ range.min_value

/-- Embedding of `lessRange`: the refined range of `lhs` under the
assumption `lhs < rhs`; the boolean is the `successful` out-parameter. -/
def lessRange (lhs rhs : VariableRange) : VariableRange × Bool :=
  let output : VariableRange :=
    { lhs with max_value := min (rhs.max_value - 1) lhs.max_value }
  if validate output then
    (output, true)
  else
    ({ min_value := INT_MAX, max_value := INT_MAX }, false)

/-- Embedding of `lessEqualRange`. -/
def lessEqualRange (lhs rhs : VariableRange) : VariableRange × Bool :=
  let output : VariableRange :=
    { lhs with max_value := min rhs.max_value lhs.max_value }
  if validate output then
    (output, true)
  else
    ({ min_value := INT_MAX, max_value := INT_MAX }, false)

/-- Embedding of `greaterRange`: note that the source computes
`min(rhs.min_value + 1, lhs.max_value)` for the refined minimum. -/
def greaterRange (lhs rhs : VariableRange) : VariableRange × Bool :=
  let output : VariableRange :=
    { lhs with min_value := min (rhs.min_value + 1) lhs.max_value }
  if validate output then
    (output, true)
  else
    ({ min_value := INT_MAX, max_value := INT_MAX }, false)

/-- Embedding of `greaterEqualRange`: note that the source computes
`min(rhs.min_value, lhs.max_value)` for the refined minimum. -/
def greaterEqualRange (lhs rhs : VariableRange) : VariableRange × Bool :=
  let output : VariableRange :=
    { lhs with min_value := min rhs.min_value lhs.max_value }
  if validate output then
    (output, true)
  else
    ({ min_value := INT_MAX, max_value := INT_MAX }, false)

/-- Embedding of `equalRange`: `lessEqualRange` followed, on success, by
`greaterEqualRange` against the same `rhs`. -/
def equalRange (lhs rhs : VariableRange) : VariableRange × Bool :=
  let p := lessEqualRange lhs rhs
  if p.2 then
    greaterEqualRange p.1 rhs
  else
    p

/-! ## Range maps (value_range.cpp)

The C++ `Ranges` is `unordered_map<Value*, VariableRange>`.  IR values are
identified here by their instruction index; a map is a fixed-length list
with `none` for an absent key, which makes `equal_ranges` plain
(decidable) equality and makes all map combinators order-insensitive, as
the C++ combinators are. -/

abbrev Ranges := List (Option VariableRange)

/-- Lookup of a value in a range map; `none` for an absent key. -/
def rlookup (r : Ranges) (v : Nat) : Option VariableRange :=
  r.getD v none

/-- Insert-or-assign of a value's range. -/
def rset (r : Ranges) (v : Nat) (x : VariableRange) : Ranges :=
  r.set v (some x)

/-- Embedding of `intersectRanges`: keys present in both maps get the hull
of the two intervals (`unionRange`); keys present in only one operand are
dropped. -/
def intersectRanges (orig to_merge : Ranges) : Ranges :=
  List.zipWith
    (fun a b =>
      match a, b with
      | some x, some y => some (unionRange x y)
      | _, _ => none)
    orig to_merge

/-- Embedding of `widen` (value_range.cpp): for every key of `current`
that is also in `original`, saturate the max to `INT_MAX` if it grew and
the min to `INT_MIN` if it shrank.  The boolean result of the C++ function
is ignored by its caller and is not modelled. -/
def widen (current original : Ranges) : Ranges :=
  List.zipWith
    (fun c o =>
      match c, o with
      | some range, some otherRange =>
          some
            { min_value :=
                if range.min_value < otherRange.min_value then INT_MIN
                else range.min_value
              max_value :=
                if range.max_value > otherRange.max_value then INT_MAX
                else range.max_value }
      | c, _ => c)
    current original

/-! ## The IR subset consumed by the pass -/

/-- An instruction operand: an `i32` constant or the SSA value produced by
the instruction with the given index. -/
inductive Operand where
  | cst (k : Int)
  | reg (v : Nat)
deriving DecidableEq, Repr

/-- Signed icmp predicates handled by `handleICMP` (an unknown predicate
aborts). -/
inductive ICmpPred where
  | peq
  | pne
  | psgt
  | pslt
  | psge
  | psle
deriving DecidableEq, Repr

/-- The opcodes `handleInst` dispatches on.  `alloca` is a scalar `i32`
stack slot, `allocaArr n` an `[n x i32]` array.  `condbr` carries the
index of its paired `icmp` instruction plus the true and false successor
blocks, mirroring operands 0/2/1 of a conditional `BranchInst`. -/
inductive Instr where
  | alloca
  | allocaArr (n : Int)
  | load (ptr : Nat)
  | store (val : Operand) (ptr : Nat)
  | binop (op : ArithOp) (a b : Operand)
  | icmp (p : ICmpPred) (a b : Operand)
  | gep (arr : Nat) (idx : Operand)
  | call
  | cast (src : Nat)
  | br (succ : Nat)
  | condbr (cmp : Nat) (tsucc fsucc : Nat)
  | ret
deriving DecidableEq, Repr

/-- A function: instructions indexed globally, and blocks listing their
instruction indices in program order.  Block 0 is the entry block. -/
structure IRFunc where
  insts : List Instr
  blocks : List (List Nat)
deriving DecidableEq, Repr

/-- The empty range map of a function (one slot per instruction, all keys
absent). -/
def emptyRanges (F : IRFunc) : Ranges :=
  List.replicate F.insts.length none

/-- Raw successor targets of a block, read off its terminator. -/
def rawSuccs (F : IRFunc) (b : Nat) : List Nat :=
  match (F.blocks.getD b []).getLast? with
  | none => []
  | some t =>
      match F.insts[t]? with
      | some (.br s) => [s]
      | some (.condbr _ ts fs) => [fs, ts]
      | _ => []

/-- Predecessors of a block, in block order. -/
def predsOf (F : IRFunc) (b : Nat) : List Nat :=
  (List.range F.blocks.length).filter (fun p => b ∈ rawSuccs F p)

/-- Embedding of `createSuccessorMap`: successors of `p` collected by
scanning the function block by block and asking for predecessors, hence
sorted in block order. -/
def succsOf (F : IRFunc) (p : Nat) : List Nat :=
  (List.range F.blocks.length).filter (fun b => p ∈ predsOf F b)

/-! ## Engine state -/

/-- The mutable maps of `BoundsCheckPass`: per-instruction range maps,
per-block entry maps, and per-edge (pred, succ) range maps. -/
structure AState where
  inst_to_ranges : List (Option Ranges)
  bb_before : List (Option Ranges)
  edges : List (List (Option Ranges))
deriving DecidableEq, Repr

def initState (F : IRFunc) : AState :=
  { inst_to_ranges := List.replicate F.insts.length none
    bb_before := List.replicate F.blocks.length none
    edges := List.replicate F.blocks.length (List.replicate F.blocks.length none) }

def edgeGet (st : AState) (p s : Nat) : Option Ranges :=
  (st.edges.getD p []).getD s none

def edgeSet (st : AState) (p s : Nat) (m : Ranges) : AState :=
  { st with edges := st.edges.set p ((st.edges.getD p []).set s (some m)) }

/-- Whether `bb_to_succ_ranges` has an entry for this parent block (the
outer `count(parent)` test of `handleBranchInstruction`). -/
def rowHasAny (st : AState) (p : Nat) : Bool :=
  (st.edges.getD p []).any Option.isSome

/-! ## Transfer functions -/

/-- Embedding of `handleLoad`: the C++ code asserts that the pointer
operand is tracked (`none` = assertion abort) and copies its range to the
loaded value. -/
def handleLoad (ranges : Ranges) (instId ptr : Nat) : Option Ranges :=
  match rlookup ranges ptr with
  | some r => some (rset ranges instId r)
  | none => none

/-- Range of a binary operand: constants become singletons, registers must
be tracked (assertion otherwise). -/
def operandRange (ranges : Ranges) : Operand → Option VariableRange
  | .cst k => some { min_value := k, max_value := k }
  | .reg v => rlookup ranges v

/-- Non-branch per-opcode updates of `handleInst` (alloca, load, store,
arithmetic, gep, call, casts; icmp and ret do nothing). -/
def transfer (instId : Nat) (i : Instr) (ranges : Ranges) : Option Ranges :=
  match i with
  | .alloca =>
      if (rlookup ranges instId).isSome then none
      else some (rset ranges instId { min_value := INT_MIN, max_value := INT_MAX })
  | .allocaArr _ =>
      if (rlookup ranges instId).isSome then none
      else some ranges
  | .load ptr => handleLoad ranges instId ptr
  | .store v ptr =>
      if (rlookup ranges ptr).isSome then
        match v with
        | .cst k => some (rset ranges ptr { min_value := k, max_value := k })
        | .reg r =>
            match rlookup ranges r with
            | some vr => some (rset ranges ptr vr)
            | none => none
      else none
  | .binop op a b => do
      let firstRange ← operandRange ranges a
      let secondRange ← operandRange ranges b
      match op with
      | .add => some (rset ranges instId (addRanges firstRange secondRange))
      | .sub => some (rset ranges instId (subRanges firstRange secondRange))
      | .div => do
          let d ← divRanges firstRange secondRange
          some (rset ranges instId d)
      | .mul => some (rset ranges instId (multRanges firstRange secondRange))
  | .gep _ _ => some (rset ranges instId {})
  | .call => some (rset ranges instId {})
  | .cast src =>
      match rlookup ranges src with
      | some r => some (rset ranges instId r)
      | none => none
  | .icmp _ _ _ => some ranges
  | .ret => some ranges
  | .br _ => some ranges
  | .condbr _ _ _ => some ranges

/-- The four refined ranges plus the two reachability flags computed by
the predicate switch of `handleICMP`.  Unset outputs keep the
default-constructed `VariableRange()`, as in the C++ locals. -/
structure RefineOut where
  if_lhs : VariableRange
  if_rhs : VariableRange
  else_lhs : VariableRange
  else_rhs : VariableRange
  if_reachable : Bool
  else_reachable : Bool
deriving DecidableEq, Repr

/-- Embedding of the predicate switch of `handleICMP`, including the
guarded second refinement of each arm (when the first refinement fails the
second output keeps its default value). -/
def refineForPred (p : ICmpPred) (first second : VariableRange) : RefineOut :=
  match p with
  | .peq =>
      let q := equalRange first second
      { if_lhs := q.1, if_rhs := q.1, else_lhs := first, else_rhs := second
        if_reachable := q.2, else_reachable := true }
  | .pne =>
      let q := equalRange first second
      { if_lhs := first, if_rhs := second, else_lhs := q.1, else_rhs := q.1
        if_reachable := true, else_reachable := q.2 }
  | .psgt =>
      let a := greaterRange first second
      let b := if a.2 then lessRange second a.1 else ({}, a.2)
      let c := lessEqualRange first second
      let d := if c.2 then greaterEqualRange second c.1 else ({}, c.2)
      { if_lhs := a.1, if_rhs := b.1, else_lhs := c.1, else_rhs := d.1
        if_reachable := b.2, else_reachable := d.2 }
  | .pslt =>
      let a := lessRange first second
      let b := if a.2 then greaterRange second a.1 else ({}, a.2)
      let c := greaterEqualRange first second
      let d := if c.2 then lessEqualRange second c.1 else ({}, c.2)
      { if_lhs := a.1, if_rhs := b.1, else_lhs := c.1, else_rhs := d.1
        if_reachable := b.2, else_reachable := d.2 }
  | .psge =>
      let a := greaterEqualRange first second
      let b := if a.2 then lessEqualRange second a.1 else ({}, a.2)
      let c := lessRange first second
      let d := if c.2 then greaterRange second c.1 else ({}, c.2)
      { if_lhs := a.1, if_rhs := b.1, else_lhs := c.1, else_rhs := d.1
        if_reachable := b.2, else_reachable := d.2 }
  | .psle =>
      let a := lessEqualRange first second
      let b := if a.2 then greaterEqualRange second a.1 else ({}, a.2)
      let c := greaterRange first second
      let d := if c.2 then lessRange second c.1 else ({}, c.2)
      { if_lhs := a.1, if_rhs := b.1, else_lhs := c.1, else_rhs := d.1
        if_reachable := b.2, else_reachable := d.2 }

/-- Resolution of an icmp operand, mirroring `handleICMP`: a constant
becomes a singleton (and contributes no write-back target); a register
must be tracked and must be a `LoadInst` (both asserted), and its
write-back target is the loaded stack slot (`getOperand(0)` of the load). -/
def resolveCmpOperand (F : IRFunc) (ranges : Ranges) : Operand → Option (VariableRange × Option Nat)
  | .cst k => some ({ min_value := k, max_value := k }, none)
  | .reg v =>
      match rlookup ranges v, F.insts[v]? with
      | some r, some (.load ptr) => some (r, some ptr)
      | _, _ => none

/-- Embedding of `handleICMP`: computes the if/else range maps (copies of
the incoming map with the operands' stack slots reassigned) and the two
reachability flags. -/
def handleICMP (F : IRFunc) (ranges : Ranges) (p : ICmpPred) (a b : Operand) :
    Option (Ranges × Ranges × Bool × Bool) := do
  let (first, tgt1) ← resolveCmpOperand F ranges a
  let (second, tgt2) ← resolveCmpOperand F ranges b
  let r := refineForPred p first second
  let if_ranges := match tgt1 with
    | some pt => rset ranges pt r.if_lhs
    | none => ranges
  let if_ranges := match tgt2 with
    | some pt => rset if_ranges pt r.if_rhs
    | none => if_ranges
  let else_ranges := match tgt1 with
    | some pt => rset ranges pt r.else_lhs
    | none => ranges
  let else_ranges := match tgt2 with
    | some pt => rset else_ranges pt r.else_rhs
    | none => else_ranges
  some (if_ranges, else_ranges, r.if_reachable, r.else_reachable)

/-- Embedding of the conditional-branch half of `handleBranchInstruction`:
writes the per-edge maps, comparing with previously stored ones, with the
`initialized` shortcut of the source. -/
def handleCondBranch (F : IRFunc) (parent : Nat) (ranges : Ranges)
    (st : AState) (cmp tsucc fsucc : Nat) : Option (AState × Bool) := do
  let ci ← F.insts[cmp]?
  match ci with
  | .icmp p a b => do
      let (if_ranges, else_ranges, if_reachable, else_reachable) ←
        handleICMP F ranges p a b
      let pre := rowHasAny st parent
      let step1 : AState × Bool × Bool :=
        if if_reachable then
          if pre then
            match edgeGet st parent tsucc with
            | some prev =>
                if if_ranges = prev then (st, false, false)
                else (edgeSet st parent tsucc if_ranges, true, false)
            | none => (edgeSet st parent tsucc if_ranges, true, false)
          else (edgeSet st parent tsucc if_ranges, true, true)
        else (st, false, false)
      let (st1, ch1, inited) := step1
      let step2 : AState × Bool :=
        if else_reachable then
          if inited then (edgeSet st1 parent fsucc else_ranges, true)
          else
            match edgeGet st1 parent fsucc with
            | some prev =>
                if else_ranges = prev then (st1, false)
                else (edgeSet st1 parent fsucc else_ranges, true)
            | none => (edgeSet st1 parent fsucc else_ranges, true)
        else (st1, false)
      some (step2.1, ch1 || step2.2)
  | _ => none

/-- Embedding of the unconditional-branch half of
`handleBranchInstruction` (the source asserts that once the parent has any
recorded edge, this successor's edge exists). -/
def handleUncondBranch (parent : Nat) (ranges : Ranges) (st : AState)
    (succ : Nat) : Option (AState × Bool) :=
  if rowHasAny st parent then
    match edgeGet st parent succ with
    | some prev =>
        if ranges = prev then some (st, false)
        else some (edgeSet st parent succ ranges, true)
    | none => none
  else
    some (edgeSet st parent succ ranges, true)

/-- Post-instruction bookkeeping of `handleInst`: compare the resulting
map with `inst_to_ranges[inst]`; on a difference widen (mutating the
in-flight map) and reinstall. -/
def bookkeep (st : AState) (instId : Nat) (ranges : Ranges) :
    Ranges × AState × Bool :=
  match st.inst_to_ranges.getD instId none with
  | some old =>
      if ranges = old then (ranges, st, false)
      else
        let w := widen ranges old
        (w, { st with inst_to_ranges := st.inst_to_ranges.set instId (some w) }, true)
  | none =>
      (ranges, { st with inst_to_ranges := st.inst_to_ranges.set instId (some ranges) }, true)

/-- Embedding of `handleInst`: branches return early through
`handleBranchInstruction` (no bookkeeping entry for a `br`); every other
opcode updates the in-flight map and then runs the bookkeeping. -/
def handleInst (F : IRFunc) (parent instId : Nat) (ranges : Ranges)
    (st : AState) : Option (Ranges × AState × Bool) := do
  let i ← F.insts[instId]?
  match i with
  | .br s => do
      let (st2, ch) ← handleUncondBranch parent ranges st s
      some (ranges, st2, ch)
  | .condbr c ts fs => do
      let (st2, ch) ← handleCondBranch F parent ranges st c ts fs
      some (ranges, st2, ch)
  | _ => do
      let r2 ← transfer instId i ranges
      some (bookkeep st instId r2)

/-! ## Fixed-point engine (runOnFunction) -/

/-- Breadth-first visit order of the blocks from the entry block, with the
visited-on-push discipline of the source; successors come from the
successor map.  The source BFS runs inside every pass, but the successor
map is static, so the order is precomputed here.  Fuel: every block is
enqueued at most once. -/
def bfsAux (F : IRFunc) : Nat → List Nat → List Nat → List Nat
  | 0, _, _ => []
  | _, [], _ => []
  | fuel + 1, c :: rest, visited =>
      let fresh := (succsOf F c).filter (fun s => decide (s ∉ visited))
      c :: bfsAux F fuel (rest ++ fresh) (visited ++ fresh)

def bfsOrder (F : IRFunc) : List Nat :=
  bfsAux F F.blocks.length [0] [0]

/-- Fold of the reachable incoming edges with `intersectRanges`, mirroring
the predecessor loop of `runOnFunction`; `none` when no incoming edge has
a recorded range map. -/
def joinPreds (st : AState) (current : Nat) : List Nat → Option Ranges → Option Ranges
  | [], acc => acc
  | p :: rest, acc =>
      match edgeGet st p current, acc with
      | some m, none => joinPreds st current rest (some m)
      | some m, some u => joinPreds st current rest (some (intersectRanges u m))
      | none, acc2 => joinPreds st current rest acc2

/-- Instruction loop of a block: thread the in-flight map through
`handleInst`, accumulating the changed flag. -/
def processInsts (F : IRFunc) (parent : Nat) :
    List Nat → Ranges → AState → Bool → Option (AState × Bool)
  | [], _, st, ch => some (st, ch)
  | i :: rest, r, st, ch => do
      let (r2, st2, ch2) ← handleInst F parent i r st
      processInsts F parent rest r2 st2 (ch || ch2)

/-- Per-block body of a pass: compute the entry map (empty for a
predecessor-less block, otherwise the join of recorded incoming edges,
skipping the block when there is none), record it in `bb_before`, then run
the instruction loop. -/
def processBlock (F : IRFunc) (st : AState) (current : Nat) :
    Option (AState × Bool) :=
  let ps := predsOf F current
  let unioned? : Option Ranges :=
    if ps.isEmpty then some (emptyRanges F) else joinPreds st current ps none
  match unioned? with
  | none => some (st, false)
  | some unioned =>
      let (st1, ch1) :=
        match st.bb_before.getD current none with
        | some prev =>
            if prev = unioned then (st, false)
            else ({ st with bb_before := st.bb_before.set current (some unioned) }, true)
        | none =>
            ({ st with bb_before := st.bb_before.set current (some unioned) }, true)
      processInsts F current (F.blocks.getD current []) unioned st1 ch1

/-- One pass of the outer loop: process every block in BFS order. -/
def onePass (F : IRFunc) (st : AState) : Option (AState × Bool) :=
  (bfsOrder F).foldlM
    (fun (acc : AState × Bool) b => do
      let (st2, ch2) ← processBlock F acc.1 b
      some (st2, acc.2 || ch2))
    (st, false)

/-- State and changed flag after exactly `n` passes from the initial
state (the flag of pass 0 is the `changed = true` initializer). -/
def runNPasses (F : IRFunc) : Nat → Option (AState × Bool)
  | 0 => some (initState F, true)
  | n + 1 => do
      let (st, _) ← runNPasses F n
      onePass F st

/-- The `while (changed)` loop, with fuel: the state after the first pass
that reports no change.  `none` if the fuel runs out before convergence
(the C++ loop would still be running) or the analysis aborts. -/
def iteratePasses (F : IRFunc) : Nat → AState → Option AState
  | 0, _ => none
  | fuel + 1, st => do
      let (st2, ch) ← onePass F st
      if ch then iteratePasses F fuel st2 else some st2

/-- Embedding of `getArrayInformation`: element count of every array
alloca (allocation size in bits divided by 32). -/
def arrayInfo (F : IRFunc) : List (Option Int) :=
  F.insts.map (fun i =>
    match i with
    | .allocaArr n => some n
    | _ => none)

/-- Embedding of `getBeforeRanges`: the map before `inst` executes — the
block's entry map when it is the block's first instruction, otherwise the
recorded post-map of the previous instruction (`unordered_map` access
default-constructs an empty map when the key is absent). -/
def getBeforeRanges (F : IRFunc) (st : AState) (instId : Nat) : Ranges :=
  let rec findIn : List (Nat × List Nat) → Ranges
    | [] => emptyRanges F
    | (b, bl) :: rest =>
        if bl.head? = some instId then
          (st.bb_before.getD b none).getD (emptyRanges F)
        else
          match bl.findIdx? (fun j => j = instId) with
          | some k =>
              (st.inst_to_ranges.getD (bl.getD (k - 1) 0) none).getD (emptyRanges F)
          | none => findIn rest
  findIn (F.blocks.enum)

/-- Embedding of `checkArrayBounds`: for every `getelementptr` with a
recorded per-instruction map, compare the index interval (singleton for a
constant, otherwise the entry of the before-map, defaulting to the
default-constructed full range) against the array size; the result is the
list of gep instruction indices reported out of bounds.  `none` models the
assertion that the array operand has a recorded size. -/
def checkArrayBounds (F : IRFunc) (st : AState) : Option (List Nat) :=
  let sizes := arrayInfo F
  (F.blocks.flatten).foldlM
    (fun (acc : List Nat) instId => do
      match F.insts[instId]? with
      | some (Instr.gep arr idx) =>
          if (st.inst_to_ranges.getD instId none).isNone then
            some acc
          else do
            let array_size ← sizes.getD arr none
            let ranges := getBeforeRanges F st instId
            let range : VariableRange :=
              match idx with
              | .cst k => { min_value := k, max_value := k }
              | .reg v => (rlookup ranges v).getD {}
            if outOfRange range array_size then
              some (acc ++ [instId])
            else
              some acc
      | _ => some acc)
    []

/-- Embedding of `runOnFunction`: iterate passes to convergence, then
collect the array sizes and run the bounds checker. -/
def analyze (F : IRFunc) (fuel : Nat) : Option (AState × List Nat) := do
  let stF ← iteratePasses F fuel (initState F)
  let ds ← checkArrayBounds F stF
  some (stF, ds)

/-- Diagnostics of the converged analysis (gep indices reported). -/
def diagsOf (F : IRFunc) (fuel : Nat) : Option (List Nat) :=
  (analyze F fuel).map Prod.snd

/-- Interval recorded for value `key` in the per-instruction map of
`instId` after convergence. -/
def instRangeOf (F : IRFunc) (fuel instId key : Nat) : Option VariableRange := do
  let (st, _) ← analyze F fuel
  let m ← st.inst_to_ranges.getD instId none
  rlookup m key

/-! ## Concrete small-step semantics of the IR

Reference semantics used to state soundness: `i32` two's-complement
values, with signed-overflow results excluded (an overflowing execution is
stuck, matching the "modulo signed-overflow undefinedness" proviso of the
spec).  Scalar stack slots are zero-initialised here: the interpreter
realises one particular concrete execution, which suffices to refute a
universally quantified soundness statement. -/

structure CState where
  regs : List (Option Int)
  mem : List (Option Int)
deriving DecidableEq, Repr

def inInt32 (x : Int) : Bool :=
  decide (INT_MIN ≤ x ∧ x ≤ INT_MAX)

def evalOperand (s : CState) : Operand → Option Int
  | .cst k => some k
  | .reg v => s.regs.getD v none

def cmpHolds (p : ICmpPred) (x y : Int) : Bool :=
  match p with
  | .peq => x = y
  | .pne => x ≠ y
  | .psgt => x > y
  | .pslt => x < y
  | .psge => x ≥ y
  | .psle => x ≤ y

/-- One concrete step of instruction `instId`; returns the updated state.
`none` is a stuck execution (overflow, division by zero, or an
ill-formed program). -/
def cstepInstr (instId : Nat) (i : Instr) (s : CState) : Option CState :=
  match i with
  | .alloca => some { s with mem := s.mem.set instId (some 0) }
  | .allocaArr _ => some s
  | .load ptr => do
      let v ← s.mem.getD ptr none
      some { s with regs := s.regs.set instId (some v) }
  | .store o ptr => do
      let v ← evalOperand s o
      some { s with mem := s.mem.set ptr (some v) }
  | .binop op a b => do
      let x ← evalOperand s a
      let y ← evalOperand s b
      let r ←
        match op with
        | .add => some (x + y)
        | .sub => some (x - y)
        | .mul => some (x * y)
        | .div => if y = 0 then none else some (Int.tdiv x y)
      if inInt32 r then some { s with regs := s.regs.set instId (some r) } else none
  | .icmp p a b => do
      let x ← evalOperand s a
      let y ← evalOperand s b
      some { s with regs := s.regs.set instId (some (if cmpHolds p x y then 1 else 0)) }
  | .gep _ _ => some { s with regs := s.regs.set instId (some 0) }
  | .call => some { s with regs := s.regs.set instId (some 0) }
  | .cast src => do
      let v ← s.regs.getD src none
      some { s with regs := s.regs.set instId (some v) }
  | .br _ => some s
  | .condbr _ _ _ => some s
  | .ret => some s

/-- Concrete execution from block 0, producing the trace of
(instruction index, state after the instruction) pairs; stops at `ret`. -/
def cexecAux (F : IRFunc) : Nat → Nat → Nat → CState → List (Nat × CState) →
    Option (List (Nat × CState))
  | 0, _, _, _, _ => none
  | fuel + 1, blockId, idx, s, tr => do
      let instId ← (F.blocks.getD blockId [])[idx]?
      let i ← F.insts[instId]?
      let s2 ← cstepInstr instId i s
      let tr2 := tr ++ [(instId, s2)]
      match i with
      | .ret => some tr2
      | .br succ => cexecAux F fuel succ 0 s2 tr2
      | .condbr cmp ts fs => do
          let c ← s2.regs.getD cmp none
          cexecAux F fuel (if c ≠ 0 then ts else fs) 0 s2 tr2
      | _ => cexecAux F fuel blockId (idx + 1) s2 tr2

def cexecTrace (F : IRFunc) (fuel : Nat) : Option (List (Nat × CState)) :=
  cexecAux F fuel 0 0
    { regs := List.replicate F.insts.length none
      mem := List.replicate F.insts.length none }
    []

/-! ## Concrete programs -/

/-- Program with a store between the compared load and the branch:

    s = alloca i32; store 0, s; x = load s; store 100, s;
    if (x < 10) { y = load s; }

Instruction indices: 0 alloca s, 1 store 0 s, 2 x = load s,
3 store 100 s, 4 icmp slt x 10, 5 condbr, 6 y = load s, 7 ret, 8 ret. -/
def PstaleStore : IRFunc :=
  { insts :=
      [ .alloca
      , .store (.cst 0) 0
      , .load 0
      , .store (.cst 100) 0
      , .icmp .pslt (.reg 2) (.cst 10)
      , .condbr 4 1 2
      , .load 0
      , .ret
      , .ret ]
    blocks := [[0, 1, 2, 3, 4, 5], [6, 7], [8]] }

/-- Loop over an opaque bound (the spec scenario
`for (int i = 0; i < N; ++i) a[i];` with `N` unknown): `a` is a 30-element
array, `N` is stored from an opaque call.

Indices: 0 a = alloca [30 x i32], 1 i = alloca, 2 n = alloca, 3 call,
4 store call n, 5 store 0 i, 6 br cond; cond: 7 load i, 8 load n,
9 icmp slt, 10 condbr body end; body: 11 load i, 12 gep a (reg 11),
13 load gep, 14 load i, 15 add 1, 16 store i, 17 br cond; end: 18 ret. -/
def PloopUnknown : IRFunc :=
  { insts :=
      [ .allocaArr 30
      , .alloca
      , .alloca
      , .call
      , .store (.reg 3) 2
      , .store (.cst 0) 1
      , .br 1
      , .load 1
      , .load 2
      , .icmp .pslt (.reg 7) (.reg 8)
      , .condbr 9 2 3
      , .load 1
      , .gep 0 (.reg 11)
      , .load 12
      , .load 1
      , .binop .add (.reg 14) (.cst 1)
      , .store (.reg 15) 1
      , .br 1
      , .ret ]
    blocks := [[0, 1, 2, 3, 4, 5, 6], [7, 8, 9, 10], [11, 12, 13, 14, 15, 16, 17], [18]] }

/-- The same loop with the literal bound 30
(`for (int i = 0; i < 30; ++i) a[i];` with `a` of 30 elements).

Indices: 0 a = alloca [30 x i32], 1 i = alloca, 2 store 0 i, 3 br cond;
cond: 4 load i, 5 icmp slt (reg 4) 30, 6 condbr body end; body: 7 load i,
8 gep a (reg 7), 9 load gep, 10 load i, 11 add 1, 12 store i, 13 br cond;
end: 14 ret. -/
def PloopLit : IRFunc :=
  { insts :=
      [ .allocaArr 30
      , .alloca
      , .store (.cst 0) 1
      , .br 1
      , .load 1
      , .icmp .pslt (.reg 4) (.cst 30)
      , .condbr 5 2 3
      , .load 1
      , .gep 0 (.reg 7)
      , .load 8
      , .load 1
      , .binop .add (.reg 10) (.cst 1)
      , .store (.reg 11) 1
      , .br 1
      , .ret ]
    blocks := [[0, 1, 2, 3], [4, 5, 6], [7, 8, 9, 10, 11, 12, 13], [14]] }

/-- Alternating-sign loop (`int i = 1; while (i < 10) i = -i;`).

Indices: 0 i = alloca, 1 store 1 i, 2 br cond; cond: 3 load i,
4 icmp slt (reg 3) 10, 5 condbr body end; body: 6 load i,
7 mul (reg 6) (-1), 8 store i, 9 br cond; end: 10 ret. -/
def Palternate : IRFunc :=
  { insts :=
      [ .alloca
      , .store (.cst 1) 0
      , .br 1
      , .load 0
      , .icmp .pslt (.reg 3) (.cst 10)
      , .condbr 4 2 3
      , .load 0
      , .binop .mul (.reg 6) (.cst (-1))
      , .store (.reg 7) 0
      , .br 1
      , .ret ]
    blocks := [[0, 1, 2], [3, 4, 5], [6, 7, 8, 9], [10]] }

/-! ## Recorded analysis states

Explicit per-pass states of the engine on the four programs above, used
to factor fixed-point computations into single-pass steps. -/

def PS_S1 : AState :=
  { inst_to_ranges := [some [some { min_value := -2147483648, max_value := 2147483647 }, none, none, none, none, none, none, none, none], some [some { min_value := 0, max_value := 0 }, none, none, none, none, none, none, none, none], some [some { min_value := 0, max_value := 0 }, none, some { min_value := 0, max_value := 0 }, none, none, none, none, none, none], some [some { min_value := 100, max_value := 100 }, none, some { min_value := 0, max_value := 0 }, none, none, none, none, none, none], some [some { min_value := 100, max_value := 100 }, none, some { min_value := 0, max_value := 0 }, none, none, none, none, none, none], none, some [some { min_value := 0, max_value := 0 }, none, some { min_value := 0, max_value := 0 }, none, none, none, some { min_value := 0, max_value := 0 }, none, none], some [some { min_value := 0, max_value := 0 }, none, some { min_value := 0, max_value := 0 }, none, none, none, some { min_value := 0, max_value := 0 }, none, none], none], bb_before := [some [none, none, none, none, none, none, none, none, none], some [some { min_value := 0, max_value := 0 }, none, some { min_value := 0, max_value := 0 }, none, none, none, none, none, none], none], edges := [[none, some [some { min_value := 0, max_value := 0 }, none, some { min_value := 0, max_value := 0 }, none, none, none, none, none, none], none], [none, none, none], [none, none, none]] }

def PU_S1 : AState :=
  { inst_to_ranges := [some [none, none, none, none, none, none, none, none, none, none, none, none, none, none, none, none, none, none, none], some [none, some { min_value := -2147483648, max_value := 2147483647 }, none, none, none, none, none, none, none, none, none, none, none, none, none, none, none, none, none], some [none, some { min_value := -2147483648, max_value := 2147483647 }, some { min_value := -2147483648, max_value := 2147483647 }, none, none, none, none, none, none, none, none, none, none, none, none, none, none, none, none], some [none, some { min_value := -2147483648, max_value := 2147483647 }, some { min_value := -2147483648, max_value := 2147483647 }, some { min_value := -2147483648, max_value := 2147483647 }, none, none, none, none, none, none, none, none, none, none, none, none, none, none, none], some [none, some { min_value := -2147483648, max_value := 2147483647 }, some { min_value := -2147483648, max_value := 2147483647 }, some { min_value := -2147483648, max_value := 2147483647 }, none, none, none, none, none, none, none, none, none, none, none, none, none, none, none], some [none, some { min_value := 0, max_value := 0 }, some { min_value := -2147483648, max_value := 2147483647 }, some { min_value := -2147483648, max_value := 2147483647 }, none, none, none, none, none, none, none, none, none, none, none, none, none, none, none], none, some [none, some { min_value := 0, max_value := 0 }, some { min_value := -2147483648, max_value := 2147483647 }, some { min_value := -2147483648, max_value := 2147483647 }, none, none, none, some { min_value := 0, max_value := 0 }, none, none, none, none, none, none, none, none, none, none, none], some [none, some { min_value := 0, max_value := 0 }, some { min_value := -2147483648, max_value := 2147483647 }, some { min_value := -2147483648, max_value := 2147483647 }, none, none, none, some { min_value := 0, max_value := 0 }, some { min_value := -2147483648, max_value := 2147483647 }, none, none, none, none, none, none, none, none, none, none], some [none, some { min_value := 0, max_value := 0 }, some { min_value := -2147483648, max_value := 2147483647 }, some { min_value := -2147483648, max_value := 2147483647 }, none, none, none, some { min_value := 0, max_value := 0 }, some { min_value := -2147483648, max_value := 2147483647 }, none, none, none, none, none, none, none, none, none, none], none, some [none, some { min_value := 0, max_value := 0 }, some { min_value := 1, max_value := 2147483647 }, some { min_value := -2147483648, max_value := 2147483647 }, none, none, none, some { min_value := 0, max_value := 0 }, some { min_value := -2147483648, max_value := 2147483647 }, none, none, some { min_value := 0, max_value := 0 }, none, none, none, none, none, none, none], some [none, some { min_value := 0, max_value := 0 }, some { min_value := 1, max_value := 2147483647 }, some { min_value := -2147483648, max_value := 2147483647 }, none, none, none, some { min_value := 0, max_value := 0 }, some { min_value := -2147483648, max_value := 2147483647 }, none, none, some { min_value := 0, max_value := 0 }, some { min_value := -2147483648, max_value := 2147483647 }, none, none, none, none, none, none], some [none, some { min_value := 0, max_value := 0 }, some { min_value := 1, max_value := 2147483647 }, some { min_value := -2147483648, max_value := 2147483647 }, none, none, none, some { min_value := 0, max_value := 0 }, some { min_value := -2147483648, max_value := 2147483647 }, none, none, some { min_value := 0, max_value := 0 }, some { min_value := -2147483648, max_value := 2147483647 }, some { min_value := -2147483648, max_value := 2147483647 }, none, none, none, none, none], some [none, some { min_value := 0, max_value := 0 }, some { min_value := 1, max_value := 2147483647 }, some { min_value := -2147483648, max_value := 2147483647 }, none, none, none, some { min_value := 0, max_value := 0 }, some { min_value := -2147483648, max_value := 2147483647 }, none, none, some { min_value := 0, max_value := 0 }, some { min_value := -2147483648, max_value := 2147483647 }, some { min_value := -2147483648, max_value := 2147483647 }, some { min_value := 0, max_value := 0 }, none, none, none, none], some [none, some { min_value := 0, max_value := 0 }, some { min_value := 1, max_value := 2147483647 }, some { min_value := -2147483648, max_value := 2147483647 }, none, none, none, some { min_value := 0, max_value := 0 }, some { min_value := -2147483648, max_value := 2147483647 }, none, none, some { min_value := 0, max_value := 0 }, some { min_value := -2147483648, max_value := 2147483647 }, some { min_value := -2147483648, max_value := 2147483647 }, some { min_value := 0, max_value := 0 }, some { min_value := 1, max_value := 1 }, none, none, none], some [none, some { min_value := 1, max_value := 1 }, some { min_value := 1, max_value := 2147483647 }, some { min_value := -2147483648, max_value := 2147483647 }, none, none, none, some { min_value := 0, max_value := 0 }, some { min_value := -2147483648, max_value := 2147483647 }, none, none, some { min_value := 0, max_value := 0 }, some { min_value := -2147483648, max_value := 2147483647 }, some { min_value := -2147483648, max_value := 2147483647 }, some { min_value := 0, max_value := 0 }, some { min_value := 1, max_value := 1 }, none, none, none], none, some [none, some { min_value := -2147483648, max_value := 0 }, some { min_value := -2147483648, max_value := 0 }, some { min_value := -2147483648, max_value := 2147483647 }, none, none, none, some { min_value := 0, max_value := 0 }, some { min_value := -2147483648, max_value := 2147483647 }, none, none, none, none, none, none, none, none, none, none]], bb_before := [some [none, none, none, none, none, none, none, none, none, none, none, none, none, none, none, none, none, none, none], some [none, some { min_value := 0, max_value := 0 }, some { min_value := -2147483648, max_value := 2147483647 }, some { min_value := -2147483648, max_value := 2147483647 }, none, none, none, none, none, none, none, none, none, none, none, none, none, none, none], some [none, some { min_value := 0, max_value := 0 }, some { min_value := 1, max_value := 2147483647 }, some { min_value := -2147483648, max_value := 2147483647 }, none, none, none, some { min_value := 0, max_value := 0 }, some { min_value := -2147483648, max_value := 2147483647 }, none, none, none, none, none, none, none, none, none, none], some [none, some { min_value := -2147483648, max_value := 0 }, some { min_value := -2147483648, max_value := 0 }, some { min_value := -2147483648, max_value := 2147483647 }, none, none, none, some { min_value := 0, max_value := 0 }, some { min_value := -2147483648, max_value := 2147483647 }, none, none, none, none, none, none, none, none, none, none]], edges := [[none, some [none, some { min_value := 0, max_value := 0 }, some { min_value := -2147483648, max_value := 2147483647 }, some { min_value := -2147483648, max_value := 2147483647 }, none, none, none, none, none, none, none, none, none, none, none, none, none, none, none], none, none], [none, none, some [none, some { min_value := 0, max_value := 0 }, some { min_value := 1, max_value := 2147483647 }, some { min_value := -2147483648, max_value := 2147483647 }, none, none, none, some { min_value := 0, max_value := 0 }, some { min_value := -2147483648, max_value := 2147483647 }, none, none, none, none, none, none, none, none, none, none], some [none, some { min_value := -2147483648, max_value := 0 }, some { min_value := -2147483648, max_value := 0 }, some { min_value := -2147483648, max_value := 2147483647 }, none, none, none, some { min_value := 0, max_value := 0 }, some { min_value := -2147483648, max_value := 2147483647 }, none, none, none, none, none, none, none, none, none, none]], [none, some [none, some { min_value := 1, max_value := 1 }, some { min_value := 1, max_value := 2147483647 }, some { min_value := -2147483648, max_value := 2147483647 }, none, none, none, some { min_value := 0, max_value := 0 }, some { min_value := -2147483648, max_value := 2147483647 }, none, none, some { min_value := 0, max_value := 0 }, some { min_value := -2147483648, max_value := 2147483647 }, some { min_value := -2147483648, max_value := 2147483647 }, some { min_value := 0, max_value := 0 }, some { min_value := 1, max_value := 1 }, none, none, none], none, none], [none, none, none, none]] }

def PU_S2 : AState :=
  { inst_to_ranges := [some [none, none, none, none, none, none, none, none, none, none, none, none, none, none, none, none, none, none, none], some [none, some { min_value := -2147483648, max_value := 2147483647 }, none, none, none, none, none, none, none, none, none, none, none, none, none, none, none, none, none], some [none, some { min_value := -2147483648, max_value := 2147483647 }, some { min_value := -2147483648, max_value := 2147483647 }, none, none, none, none, none, none, none, none, none, none, none, none, none, none, none, none], some [none, some { min_value := -2147483648, max_value := 2147483647 }, some { min_value := -2147483648, max_value := 2147483647 }, some { min_value := -2147483648, max_value := 2147483647 }, none, none, none, none, none, none, none, none, none, none, none, none, none, none, none], some [none, some { min_value := -2147483648, max_value := 2147483647 }, some { min_value := -2147483648, max_value := 2147483647 }, some { min_value := -2147483648, max_value := 2147483647 }, none, none, none, none, none, none, none, none, none, none, none, none, none, none, none], some [none, some { min_value := 0, max_value := 0 }, some { min_value := -2147483648, max_value := 2147483647 }, some { min_value := -2147483648, max_value := 2147483647 }, none, none, none, none, none, none, none, none, none, none, none, none, none, none, none], none, some [none, some { min_value := 0, max_value := 2147483647 }, some { min_value := -2147483648, max_value := 2147483647 }, some { min_value := -2147483648, max_value := 2147483647 }, none, none, none, some { min_value := 0, max_value := 2147483647 }, none, none, none, none, none, none, none, none, none, none, none], some [none, some { min_value := 0, max_value := 2147483647 }, some { min_value := -2147483648, max_value := 2147483647 }, some { min_value := -2147483648, max_value := 2147483647 }, none, none, none, some { min_value := 0, max_value := 2147483647 }, some { min_value := -2147483648, max_value := 2147483647 }, none, none, none, none, none, none, none, none, none, none], some [none, some { min_value := 0, max_value := 2147483647 }, some { min_value := -2147483648, max_value := 2147483647 }, some { min_value := -2147483648, max_value := 2147483647 }, none, none, none, some { min_value := 0, max_value := 2147483647 }, some { min_value := -2147483648, max_value := 2147483647 }, none, none, none, none, none, none, none, none, none, none], none, some [none, some { min_value := 0, max_value := 2147483647 }, some { min_value := 1, max_value := 2147483647 }, some { min_value := -2147483648, max_value := 2147483647 }, none, none, none, some { min_value := 0, max_value := 2147483647 }, some { min_value := -2147483648, max_value := 2147483647 }, none, none, some { min_value := 0, max_value := 2147483647 }, none, none, none, none, none, none, none], some [none, some { min_value := 0, max_value := 2147483647 }, some { min_value := 1, max_value := 2147483647 }, some { min_value := -2147483648, max_value := 2147483647 }, none, none, none, some { min_value := 0, max_value := 2147483647 }, some { min_value := -2147483648, max_value := 2147483647 }, none, none, some { min_value := 0, max_value := 2147483647 }, some { min_value := -2147483648, max_value := 2147483647 }, none, none, none, none, none, none], some [none, some { min_value := 0, max_value := 2147483647 }, some { min_value := 1, max_value := 2147483647 }, some { min_value := -2147483648, max_value := 2147483647 }, none, none, none, some { min_value := 0, max_value := 2147483647 }, some { min_value := -2147483648, max_value := 2147483647 }, none, none, some { min_value := 0, max_value := 2147483647 }, some { min_value := -2147483648, max_value := 2147483647 }, some { min_value := -2147483648, max_value := 2147483647 }, none, none, none, none, none], some [none, some { min_value := 0, max_value := 2147483647 }, some { min_value := 1, max_value := 2147483647 }, some { min_value := -2147483648, max_value := 2147483647 }, none, none, none, some { min_value := 0, max_value := 2147483647 }, some { min_value := -2147483648, max_value := 2147483647 }, none, none, some { min_value := 0, max_value := 2147483647 }, some { min_value := -2147483648, max_value := 2147483647 }, some { min_value := -2147483648, max_value := 2147483647 }, some { min_value := 0, max_value := 2147483647 }, none, none, none, none], some [none, some { min_value := 0, max_value := 2147483647 }, some { min_value := 1, max_value := 2147483647 }, some { min_value := -2147483648, max_value := 2147483647 }, none, none, none, some { min_value := 0, max_value := 2147483647 }, some { min_value := -2147483648, max_value := 2147483647 }, none, none, some { min_value := 0, max_value := 2147483647 }, some { min_value := -2147483648, max_value := 2147483647 }, some { min_value := -2147483648, max_value := 2147483647 }, some { min_value := 0, max_value := 2147483647 }, some { min_value := 1, max_value := 2147483647 }, none, none, none], some [none, some { min_value := 1, max_value := 2147483647 }, some { min_value := 1, max_value := 2147483647 }, some { min_value := -2147483648, max_value := 2147483647 }, none, none, none, some { min_value := 0, max_value := 2147483647 }, some { min_value := -2147483648, max_value := 2147483647 }, none, none, some { min_value := 0, max_value := 2147483647 }, some { min_value := -2147483648, max_value := 2147483647 }, some { min_value := -2147483648, max_value := 2147483647 }, some { min_value := 0, max_value := 2147483647 }, some { min_value := 1, max_value := 2147483647 }, none, none, none], none, some [none, some { min_value := -2147483648, max_value := 2147483647 }, some { min_value := -2147483648, max_value := 2147483647 }, some { min_value := -2147483648, max_value := 2147483647 }, none, none, none, some { min_value := 0, max_value := 2147483647 }, some { min_value := -2147483648, max_value := 2147483647 }, none, none, none, none, none, none, none, none, none, none]], bb_before := [some [none, none, none, none, none, none, none, none, none, none, none, none, none, none, none, none, none, none, none], some [none, some { min_value := 0, max_value := 1 }, some { min_value := -2147483648, max_value := 2147483647 }, some { min_value := -2147483648, max_value := 2147483647 }, none, none, none, none, none, none, none, none, none, none, none, none, none, none, none], some [none, some { min_value := 0, max_value := 2147483646 }, some { min_value := 1, max_value := 2147483647 }, some { min_value := -2147483648, max_value := 2147483647 }, none, none, none, some { min_value := 0, max_value := 2147483647 }, some { min_value := -2147483648, max_value := 2147483647 }, none, none, none, none, none, none, none, none, none, none], some [none, some { min_value := -2147483648, max_value := 2147483647 }, some { min_value := -2147483648, max_value := 2147483647 }, some { min_value := -2147483648, max_value := 2147483647 }, none, none, none, some { min_value := 0, max_value := 2147483647 }, some { min_value := -2147483648, max_value := 2147483647 }, none, none, none, none, none, none, none, none, none, none]], edges := [[none, some [none, some { min_value := 0, max_value := 0 }, some { min_value := -2147483648, max_value := 2147483647 }, some { min_value := -2147483648, max_value := 2147483647 }, none, none, none, none, none, none, none, none, none, none, none, none, none, none, none], none, none], [none, none, some [none, some { min_value := 0, max_value := 2147483646 }, some { min_value := 1, max_value := 2147483647 }, some { min_value := -2147483648, max_value := 2147483647 }, none, none, none, some { min_value := 0, max_value := 2147483647 }, some { min_value := -2147483648, max_value := 2147483647 }, none, none, none, none, none, none, none, none, none, none], some [none, some { min_value := -2147483648, max_value := 2147483647 }, some { min_value := -2147483648, max_value := 2147483647 }, some { min_value := -2147483648, max_value := 2147483647 }, none, none, none, some { min_value := 0, max_value := 2147483647 }, some { min_value := -2147483648, max_value := 2147483647 }, none, none, none, none, none, none, none, none, none, none]], [none, some [none, some { min_value := 1, max_value := 2147483647 }, some { min_value := 1, max_value := 2147483647 }, some { min_value := -2147483648, max_value := 2147483647 }, none, none, none, some { min_value := 0, max_value := 2147483647 }, some { min_value := -2147483648, max_value := 2147483647 }, none, none, some { min_value := 0, max_value := 2147483647 }, some { min_value := -2147483648, max_value := 2147483647 }, some { min_value := -2147483648, max_value := 2147483647 }, some { min_value := 0, max_value := 2147483647 }, some { min_value := 1, max_value := 2147483647 }, none, none, none], none, none], [none, none, none, none]] }

def PU_S3 : AState :=
  { inst_to_ranges := [some [none, none, none, none, none, none, none, none, none, none, none, none, none, none, none, none, none, none, none], some [none, some { min_value := -2147483648, max_value := 2147483647 }, none, none, none, none, none, none, none, none, none, none, none, none, none, none, none, none, none], some [none, some { min_value := -2147483648, max_value := 2147483647 }, some { min_value := -2147483648, max_value := 2147483647 }, none, none, none, none, none, none, none, none, none, none, none, none, none, none, none, none], some [none, some { min_value := -2147483648, max_value := 2147483647 }, some { min_value := -2147483648, max_value := 2147483647 }, some { min_value := -2147483648, max_value := 2147483647 }, none, none, none, none, none, none, none, none, none, none, none, none, none, none, none], some [none, some { min_value := -2147483648, max_value := 2147483647 }, some { min_value := -2147483648, max_value := 2147483647 }, some { min_value := -2147483648, max_value := 2147483647 }, none, none, none, none, none, none, none, none, none, none, none, none, none, none, none], some [none, some { min_value := 0, max_value := 0 }, some { min_value := -2147483648, max_value := 2147483647 }, some { min_value := -2147483648, max_value := 2147483647 }, none, none, none, none, none, none, none, none, none, none, none, none, none, none, none], none, some [none, some { min_value := 0, max_value := 2147483647 }, some { min_value := -2147483648, max_value := 2147483647 }, some { min_value := -2147483648, max_value := 2147483647 }, none, none, none, some { min_value := 0, max_value := 2147483647 }, none, none, none, none, none, none, none, none, none, none, none], some [none, some { min_value := 0, max_value := 2147483647 }, some { min_value := -2147483648, max_value := 2147483647 }, some { min_value := -2147483648, max_value := 2147483647 }, none, none, none, some { min_value := 0, max_value := 2147483647 }, some { min_value := -2147483648, max_value := 2147483647 }, none, none, none, none, none, none, none, none, none, none], some [none, some { min_value := 0, max_value := 2147483647 }, some { min_value := -2147483648, max_value := 2147483647 }, some { min_value := -2147483648, max_value := 2147483647 }, none, none, none, some { min_value := 0, max_value := 2147483647 }, some { min_value := -2147483648, max_value := 2147483647 }, none, none, none, none, none, none, none, none, none, none], none, some [none, some { min_value := 0, max_value := 2147483646 }, some { min_value := 1, max_value := 2147483647 }, some { min_value := -2147483648, max_value := 2147483647 }, none, none, none, some { min_value := 0, max_value := 2147483647 }, some { min_value := -2147483648, max_value := 2147483647 }, none, none, some { min_value := 0, max_value := 2147483646 }, none, none, none, none, none, none, none], some [none, some { min_value := 0, max_value := 2147483646 }, some { min_value := 1, max_value := 2147483647 }, some { min_value := -2147483648, max_value := 2147483647 }, none, none, none, some { min_value := 0, max_value := 2147483647 }, some { min_value := -2147483648, max_value := 2147483647 }, none, none, some { min_value := 0, max_value := 2147483646 }, some { min_value := -2147483648, max_value := 2147483647 }, none, none, none, none, none, none], some [none, some { min_value := 0, max_value := 2147483646 }, some { min_value := 1, max_value := 2147483647 }, some { min_value := -2147483648, max_value := 2147483647 }, none, none, none, some { min_value := 0, max_value := 2147483647 }, some { min_value := -2147483648, max_value := 2147483647 }, none, none, some { min_value := 0, max_value := 2147483646 }, some { min_value := -2147483648, max_value := 2147483647 }, some { min_value := -2147483648, max_value := 2147483647 }, none, none, none, none, none], some [none, some { min_value := 0, max_value := 2147483646 }, some { min_value := 1, max_value := 2147483647 }, some { min_value := -2147483648, max_value := 2147483647 }, none, none, none, some { min_value := 0, max_value := 2147483647 }, some { min_value := -2147483648, max_value := 2147483647 }, none, none, some { min_value := 0, max_value := 2147483646 }, some { min_value := -2147483648, max_value := 2147483647 }, some { min_value := -2147483648, max_value := 2147483647 }, some { min_value := 0, max_value := 2147483646 }, none, none, none, none], some [none, some { min_value := 0, max_value := 2147483646 }, some { min_value := 1, max_value := 2147483647 }, some { min_value := -2147483648, max_value := 2147483647 }, none, none, none, some { min_value := 0, max_value := 2147483647 }, some { min_value := -2147483648, max_value := 2147483647 }, none, none, some { min_value := 0, max_value := 2147483646 }, some { min_value := -2147483648, max_value := 2147483647 }, some { min_value := -2147483648, max_value := 2147483647 }, some { min_value := 0, max_value := 2147483646 }, some { min_value := 1, max_value := 2147483647 }, none, none, none], some [none, some { min_value := 1, max_value := 2147483647 }, some { min_value := 1, max_value := 2147483647 }, some { min_value := -2147483648, max_value := 2147483647 }, none, none, none, some { min_value := 0, max_value := 2147483647 }, some { min_value := -2147483648, max_value := 2147483647 }, none, none, some { min_value := 0, max_value := 2147483646 }, some { min_value := -2147483648, max_value := 2147483647 }, some { min_value := -2147483648, max_value := 2147483647 }, some { min_value := 0, max_value := 2147483646 }, some { min_value := 1, max_value := 2147483647 }, none, none, none], none, some [none, some { min_value := -2147483648, max_value := 2147483647 }, some { min_value := -2147483648, max_value := 2147483647 }, some { min_value := -2147483648, max_value := 2147483647 }, none, none, none, some { min_value := 0, max_value := 2147483647 }, some { min_value := -2147483648, max_value := 2147483647 }, none, none, none, none, none, none, none, none, none, none]], bb_before := [some [none, none, none, none, none, none, none, none, none, none, none, none, none, none, none, none, none, none, none], some [none, some { min_value := 0, max_value := 2147483647 }, some { min_value := -2147483648, max_value := 2147483647 }, some { min_value := -2147483648, max_value := 2147483647 }, none, none, none, none, none, none, none, none, none, none, none, none, none, none, none], some [none, some { min_value := 0, max_value := 2147483646 }, some { min_value := 1, max_value := 2147483647 }, some { min_value := -2147483648, max_value := 2147483647 }, none, none, none, some { min_value := 0, max_value := 2147483647 }, some { min_value := -2147483648, max_value := 2147483647 }, none, none, none, none, none, none, none, none, none, none], some [none, some { min_value := -2147483648, max_value := 2147483647 }, some { min_value := -2147483648, max_value := 2147483647 }, some { min_value := -2147483648, max_value := 2147483647 }, none, none, none, some { min_value := 0, max_value := 2147483647 }, some { min_value := -2147483648, max_value := 2147483647 }, none, none, none, none, none, none, none, none, none, none]], edges := [[none, some [none, some { min_value := 0, max_value := 0 }, some { min_value := -2147483648, max_value := 2147483647 }, some { min_value := -2147483648, max_value := 2147483647 }, none, none, none, none, none, none, none, none, none, none, none, none, none, none, none], none, none], [none, none, some [none, some { min_value := 0, max_value := 2147483646 }, some { min_value := 1, max_value := 2147483647 }, some { min_value := -2147483648, max_value := 2147483647 }, none, none, none, some { min_value := 0, max_value := 2147483647 }, some { min_value := -2147483648, max_value := 2147483647 }, none, none, none, none, none, none, none, none, none, none], some [none, some { min_value := -2147483648, max_value := 2147483647 }, some { min_value := -2147483648, max_value := 2147483647 }, some { min_value := -2147483648, max_value := 2147483647 }, none, none, none, some { min_value := 0, max_value := 2147483647 }, some { min_value := -2147483648, max_value := 2147483647 }, none, none, none, none, none, none, none, none, none, none]], [none, some [none, some { min_value := 1, max_value := 2147483647 }, some { min_value := 1, max_value := 2147483647 }, some { min_value := -2147483648, max_value := 2147483647 }, none, none, none, some { min_value := 0, max_value := 2147483647 }, some { min_value := -2147483648, max_value := 2147483647 }, none, none, some { min_value := 0, max_value := 2147483646 }, some { min_value := -2147483648, max_value := 2147483647 }, some { min_value := -2147483648, max_value := 2147483647 }, some { min_value := 0, max_value := 2147483646 }, some { min_value := 1, max_value := 2147483647 }, none, none, none], none, none], [none, none, none, none]] }

def PL_S1 : AState :=
  { inst_to_ranges := [some [none, none, none, none, none, none, none, none, none, none, none, none, none, none, none], some [none, some { min_value := -2147483648, max_value := 2147483647 }, none, none, none, none, none, none, none, none, none, none, none, none, none], some [none, some { min_value := 0, max_value := 0 }, none, none, none, none, none, none, none, none, none, none, none, none, none], none, some [none, some { min_value := 0, max_value := 0 }, none, none, some { min_value := 0, max_value := 0 }, none, none, none, none, none, none, none, none, none, none], some [none, some { min_value := 0, max_value := 0 }, none, none, some { min_value := 0, max_value := 0 }, none, none, none, none, none, none, none, none, none, none], none, some [none, some { min_value := 0, max_value := 0 }, none, none, some { min_value := 0, max_value := 0 }, none, none, some { min_value := 0, max_value := 0 }, none, none, none, none, none, none, none], some [none, some { min_value := 0, max_value := 0 }, none, none, some { min_value := 0, max_value := 0 }, none, none, some { min_value := 0, max_value := 0 }, some { min_value := -2147483648, max_value := 2147483647 }, none, none, none, none, none, none], some [none, some { min_value := 0, max_value := 0 }, none, none, some { min_value := 0, max_value := 0 }, none, none, some { min_value := 0, max_value := 0 }, some { min_value := -2147483648, max_value := 2147483647 }, some { min_value := -2147483648, max_value := 2147483647 }, none, none, none, none, none], some [none, some { min_value := 0, max_value := 0 }, none, none, some { min_value := 0, max_value := 0 }, none, none, some { min_value := 0, max_value := 0 }, some { min_value := -2147483648, max_value := 2147483647 }, some { min_value := -2147483648, max_value := 2147483647 }, some { min_value := 0, max_value := 0 }, none, none, none, none], some [none, some { min_value := 0, max_value := 0 }, none, none, some { min_value := 0, max_value := 0 }, none, none, some { min_value := 0, max_value := 0 }, some { min_value := -2147483648, max_value := 2147483647 }, some { min_value := -2147483648, max_value := 2147483647 }, some { min_value := 0, max_value := 0 }, some { min_value := 1, max_value := 1 }, none, none, none], some [none, some { min_value := 1, max_value := 1 }, none, none, some { min_value := 0, max_value := 0 }, none, none, some { min_value := 0, max_value := 0 }, some { min_value := -2147483648, max_value := 2147483647 }, some { min_value := -2147483648, max_value := 2147483647 }, some { min_value := 0, max_value := 0 }, some { min_value := 1, max_value := 1 }, none, none, none], none, none], bb_before := [some [none, none, none, none, none, none, none, none, none, none, none, none, none, none, none], some [none, some { min_value := 0, max_value := 0 }, none, none, none, none, none, none, none, none, none, none, none, none, none], some [none, some { min_value := 0, max_value := 0 }, none, none, some { min_value := 0, max_value := 0 }, none, none, none, none, none, none, none, none, none, none], none], edges := [[none, some [none, some { min_value := 0, max_value := 0 }, none, none, none, none, none, none, none, none, none, none, none, none, none], none, none], [none, none, some [none, some { min_value := 0, max_value := 0 }, none, none, some { min_value := 0, max_value := 0 }, none, none, none, none, none, none, none, none, none, none], none], [none, some [none, some { min_value := 1, max_value := 1 }, none, none, some { min_value := 0, max_value := 0 }, none, none, some { min_value := 0, max_value := 0 }, some { min_value := -2147483648, max_value := 2147483647 }, some { min_value := -2147483648, max_value := 2147483647 }, some { min_value := 0, max_value := 0 }, some { min_value := 1, max_value := 1 }, none, none, none], none, none], [none, none, none, none]] }

def PL_S2 : AState :=
  { inst_to_ranges := [some [none, none, none, none, none, none, none, none, none, none, none, none, none, none, none], some [none, some { min_value := -2147483648, max_value := 2147483647 }, none, none, none, none, none, none, none, none, none, none, none, none, none], some [none, some { min_value := 0, max_value := 0 }, none, none, none, none, none, none, none, none, none, none, none, none, none], none, some [none, some { min_value := 0, max_value := 2147483647 }, none, none, some { min_value := 0, max_value := 2147483647 }, none, none, none, none, none, none, none, none, none, none], some [none, some { min_value := 0, max_value := 2147483647 }, none, none, some { min_value := 0, max_value := 2147483647 }, none, none, none, none, none, none, none, none, none, none], none, some [none, some { min_value := 0, max_value := 2147483647 }, none, none, some { min_value := 0, max_value := 2147483647 }, none, none, some { min_value := 0, max_value := 2147483647 }, none, none, none, none, none, none, none], some [none, some { min_value := 0, max_value := 2147483647 }, none, none, some { min_value := 0, max_value := 2147483647 }, none, none, some { min_value := 0, max_value := 2147483647 }, some { min_value := -2147483648, max_value := 2147483647 }, none, none, none, none, none, none], some [none, some { min_value := 0, max_value := 2147483647 }, none, none, some { min_value := 0, max_value := 2147483647 }, none, none, some { min_value := 0, max_value := 2147483647 }, some { min_value := -2147483648, max_value := 2147483647 }, some { min_value := -2147483648, max_value := 2147483647 }, none, none, none, none, none], some [none, some { min_value := 0, max_value := 2147483647 }, none, none, some { min_value := 0, max_value := 2147483647 }, none, none, some { min_value := 0, max_value := 2147483647 }, some { min_value := -2147483648, max_value := 2147483647 }, some { min_value := -2147483648, max_value := 2147483647 }, some { min_value := 0, max_value := 2147483647 }, none, none, none, none], some [none, some { min_value := 0, max_value := 2147483647 }, none, none, some { min_value := 0, max_value := 2147483647 }, none, none, some { min_value := 0, max_value := 2147483647 }, some { min_value := -2147483648, max_value := 2147483647 }, some { min_value := -2147483648, max_value := 2147483647 }, some { min_value := 0, max_value := 2147483647 }, some { min_value := 1, max_value := 2147483647 }, none, none, none], some [none, some { min_value := 1, max_value := 2147483647 }, none, none, some { min_value := 0, max_value := 2147483647 }, none, none, some { min_value := 0, max_value := 2147483647 }, some { min_value := -2147483648, max_value := 2147483647 }, some { min_value := -2147483648, max_value := 2147483647 }, some { min_value := 0, max_value := 2147483647 }, some { min_value := 1, max_value := 2147483647 }, none, none, none], none, some [none, some { min_value := 30, max_value := 2147483647 }, none, none, some { min_value := 0, max_value := 2147483647 }, none, none, none, none, none, none, none, none, none, none]], bb_before := [some [none, none, none, none, none, none, none, none, none, none, none, none, none, none, none], some [none, some { min_value := 0, max_value := 1 }, none, none, none, none, none, none, none, none, none, none, none, none, none], some [none, some { min_value := 0, max_value := 29 }, none, none, some { min_value := 0, max_value := 2147483647 }, none, none, none, none, none, none, none, none, none, none], some [none, some { min_value := 30, max_value := 2147483647 }, none, none, some { min_value := 0, max_value := 2147483647 }, none, none, none, none, none, none, none, none, none, none]], edges := [[none, some [none, some { min_value := 0, max_value := 0 }, none, none, none, none, none, none, none, none, none, none, none, none, none], none, none], [none, none, some [none, some { min_value := 0, max_value := 29 }, none, none, some { min_value := 0, max_value := 2147483647 }, none, none, none, none, none, none, none, none, none, none], some [none, some { min_value := 30, max_value := 2147483647 }, none, none, some { min_value := 0, max_value := 2147483647 }, none, none, none, none, none, none, none, none, none, none]], [none, some [none, some { min_value := 1, max_value := 2147483647 }, none, none, some { min_value := 0, max_value := 2147483647 }, none, none, some { min_value := 0, max_value := 2147483647 }, some { min_value := -2147483648, max_value := 2147483647 }, some { min_value := -2147483648, max_value := 2147483647 }, some { min_value := 0, max_value := 2147483647 }, some { min_value := 1, max_value := 2147483647 }, none, none, none], none, none], [none, none, none, none]] }

def PL_S3 : AState :=
  { inst_to_ranges := [some [none, none, none, none, none, none, none, none, none, none, none, none, none, none, none], some [none, some { min_value := -2147483648, max_value := 2147483647 }, none, none, none, none, none, none, none, none, none, none, none, none, none], some [none, some { min_value := 0, max_value := 0 }, none, none, none, none, none, none, none, none, none, none, none, none, none], none, some [none, some { min_value := 0, max_value := 2147483647 }, none, none, some { min_value := 0, max_value := 2147483647 }, none, none, none, none, none, none, none, none, none, none], some [none, some { min_value := 0, max_value := 2147483647 }, none, none, some { min_value := 0, max_value := 2147483647 }, none, none, none, none, none, none, none, none, none, none], none, some [none, some { min_value := 0, max_value := 29 }, none, none, some { min_value := 0, max_value := 2147483647 }, none, none, some { min_value := 0, max_value := 29 }, none, none, none, none, none, none, none], some [none, some { min_value := 0, max_value := 29 }, none, none, some { min_value := 0, max_value := 2147483647 }, none, none, some { min_value := 0, max_value := 29 }, some { min_value := -2147483648, max_value := 2147483647 }, none, none, none, none, none, none], some [none, some { min_value := 0, max_value := 29 }, none, none, some { min_value := 0, max_value := 2147483647 }, none, none, some { min_value := 0, max_value := 29 }, some { min_value := -2147483648, max_value := 2147483647 }, some { min_value := -2147483648, max_value := 2147483647 }, none, none, none, none, none], some [none, some { min_value := 0, max_value := 29 }, none, none, some { min_value := 0, max_value := 2147483647 }, none, none, some { min_value := 0, max_value := 29 }, some { min_value := -2147483648, max_value := 2147483647 }, some { min_value := -2147483648, max_value := 2147483647 }, some { min_value := 0, max_value := 29 }, none, none, none, none], some [none, some { min_value := 0, max_value := 29 }, none, none, some { min_value := 0, max_value := 2147483647 }, none, none, some { min_value := 0, max_value := 29 }, some { min_value := -2147483648, max_value := 2147483647 }, some { min_value := -2147483648, max_value := 2147483647 }, some { min_value := 0, max_value := 29 }, some { min_value := 1, max_value := 30 }, none, none, none], some [none, some { min_value := 1, max_value := 30 }, none, none, some { min_value := 0, max_value := 2147483647 }, none, none, some { min_value := 0, max_value := 29 }, some { min_value := -2147483648, max_value := 2147483647 }, some { min_value := -2147483648, max_value := 2147483647 }, some { min_value := 0, max_value := 29 }, some { min_value := 1, max_value := 30 }, none, none, none], none, some [none, some { min_value := 30, max_value := 2147483647 }, none, none, some { min_value := 0, max_value := 2147483647 }, none, none, none, none, none, none, none, none, none, none]], bb_before := [some [none, none, none, none, none, none, none, none, none, none, none, none, none, none, none], some [none, some { min_value := 0, max_value := 2147483647 }, none, none, none, none, none, none, none, none, none, none, none, none, none], some [none, some { min_value := 0, max_value := 29 }, none, none, some { min_value := 0, max_value := 2147483647 }, none, none, none, none, none, none, none, none, none, none], some [none, some { min_value := 30, max_value := 2147483647 }, none, none, some { min_value := 0, max_value := 2147483647 }, none, none, none, none, none, none, none, none, none, none]], edges := [[none, some [none, some { min_value := 0, max_value := 0 }, none, none, none, none, none, none, none, none, none, none, none, none, none], none, none], [none, none, some [none, some { min_value := 0, max_value := 29 }, none, none, some { min_value := 0, max_value := 2147483647 }, none, none, none, none, none, none, none, none, none, none], some [none, some { min_value := 30, max_value := 2147483647 }, none, none, some { min_value := 0, max_value := 2147483647 }, none, none, none, none, none, none, none, none, none, none]], [none, some [none, some { min_value := 1, max_value := 30 }, none, none, some { min_value := 0, max_value := 2147483647 }, none, none, some { min_value := 0, max_value := 29 }, some { min_value := -2147483648, max_value := 2147483647 }, some { min_value := -2147483648, max_value := 2147483647 }, some { min_value := 0, max_value := 29 }, some { min_value := 1, max_value := 30 }, none, none, none], none, none], [none, none, none, none]] }

def PL_S4 : AState :=
  { inst_to_ranges := [some [none, none, none, none, none, none, none, none, none, none, none, none, none, none, none], some [none, some { min_value := -2147483648, max_value := 2147483647 }, none, none, none, none, none, none, none, none, none, none, none, none, none], some [none, some { min_value := 0, max_value := 0 }, none, none, none, none, none, none, none, none, none, none, none, none, none], none, some [none, some { min_value := 0, max_value := 30 }, none, none, some { min_value := 0, max_value := 30 }, none, none, none, none, none, none, none, none, none, none], some [none, some { min_value := 0, max_value := 30 }, none, none, some { min_value := 0, max_value := 30 }, none, none, none, none, none, none, none, none, none, none], none, some [none, some { min_value := 0, max_value := 29 }, none, none, some { min_value := 0, max_value := 30 }, none, none, some { min_value := 0, max_value := 29 }, none, none, none, none, none, none, none], some [none, some { min_value := 0, max_value := 29 }, none, none, some { min_value := 0, max_value := 30 }, none, none, some { min_value := 0, max_value := 29 }, some { min_value := -2147483648, max_value := 2147483647 }, none, none, none, none, none, none], some [none, some { min_value := 0, max_value := 29 }, none, none, some { min_value := 0, max_value := 30 }, none, none, some { min_value := 0, max_value := 29 }, some { min_value := -2147483648, max_value := 2147483647 }, some { min_value := -2147483648, max_value := 2147483647 }, none, none, none, none, none], some [none, some { min_value := 0, max_value := 29 }, none, none, some { min_value := 0, max_value := 30 }, none, none, some { min_value := 0, max_value := 29 }, some { min_value := -2147483648, max_value := 2147483647 }, some { min_value := -2147483648, max_value := 2147483647 }, some { min_value := 0, max_value := 29 }, none, none, none, none], some [none, some { min_value := 0, max_value := 29 }, none, none, some { min_value := 0, max_value := 30 }, none, none, some { min_value := 0, max_value := 29 }, some { min_value := -2147483648, max_value := 2147483647 }, some { min_value := -2147483648, max_value := 2147483647 }, some { min_value := 0, max_value := 29 }, some { min_value := 1, max_value := 30 }, none, none, none], some [none, some { min_value := 1, max_value := 30 }, none, none, some { min_value := 0, max_value := 30 }, none, none, some { min_value := 0, max_value := 29 }, some { min_value := -2147483648, max_value := 2147483647 }, some { min_value := -2147483648, max_value := 2147483647 }, some { min_value := 0, max_value := 29 }, some { min_value := 1, max_value := 30 }, none, none, none], none, some [none, some { min_value := 30, max_value := 30 }, none, none, some { min_value := 0, max_value := 30 }, none, none, none, none, none, none, none, none, none, none]], bb_before := [some [none, none, none, none, none, none, none, none, none, none, none, none, none, none, none], some [none, some { min_value := 0, max_value := 30 }, none, none, none, none, none, none, none, none, none, none, none, none, none], some [none, some { min_value := 0, max_value := 29 }, none, none, some { min_value := 0, max_value := 30 }, none, none, none, none, none, none, none, none, none, none], some [none, some { min_value := 30, max_value := 30 }, none, none, some { min_value := 0, max_value := 30 }, none, none, none, none, none, none, none, none, none, none]], edges := [[none, some [none, some { min_value := 0, max_value := 0 }, none, none, none, none, none, none, none, none, none, none, none, none, none], none, none], [none, none, some [none, some { min_value := 0, max_value := 29 }, none, none, some { min_value := 0, max_value := 30 }, none, none, none, none, none, none, none, none, none, none], some [none, some { min_value := 30, max_value := 30 }, none, none, some { min_value := 0, max_value := 30 }, none, none, none, none, none, none, none, none, none, none]], [none, some [none, some { min_value := 1, max_value := 30 }, none, none, some { min_value := 0, max_value := 30 }, none, none, some { min_value := 0, max_value := 29 }, some { min_value := -2147483648, max_value := 2147483647 }, some { min_value := -2147483648, max_value := 2147483647 }, some { min_value := 0, max_value := 29 }, some { min_value := 1, max_value := 30 }, none, none, none], none, none], [none, none, none, none]] }

def PA_S1 : AState :=
  { inst_to_ranges := [some [some { min_value := -2147483648, max_value := 2147483647 }, none, none, none, none, none, none, none, none, none, none], some [some { min_value := 1, max_value := 1 }, none, none, none, none, none, none, none, none, none, none], none, some [some { min_value := 1, max_value := 1 }, none, none, some { min_value := 1, max_value := 1 }, none, none, none, none, none, none, none], some [some { min_value := 1, max_value := 1 }, none, none, some { min_value := 1, max_value := 1 }, none, none, none, none, none, none, none], none, some [some { min_value := 1, max_value := 1 }, none, none, some { min_value := 1, max_value := 1 }, none, none, some { min_value := 1, max_value := 1 }, none, none, none, none], some [some { min_value := 1, max_value := 1 }, none, none, some { min_value := 1, max_value := 1 }, none, none, some { min_value := 1, max_value := 1 }, some { min_value := -1, max_value := -1 }, none, none, none], some [some { min_value := -1, max_value := -1 }, none, none, some { min_value := 1, max_value := 1 }, none, none, some { min_value := 1, max_value := 1 }, some { min_value := -1, max_value := -1 }, none, none, none], none, none], bb_before := [some [none, none, none, none, none, none, none, none, none, none, none], some [some { min_value := 1, max_value := 1 }, none, none, none, none, none, none, none, none, none, none], some [some { min_value := 1, max_value := 1 }, none, none, some { min_value := 1, max_value := 1 }, none, none, none, none, none, none, none], none], edges := [[none, some [some { min_value := 1, max_value := 1 }, none, none, none, none, none, none, none, none, none, none], none, none], [none, none, some [some { min_value := 1, max_value := 1 }, none, none, some { min_value := 1, max_value := 1 }, none, none, none, none, none, none, none], none], [none, some [some { min_value := -1, max_value := -1 }, none, none, some { min_value := 1, max_value := 1 }, none, none, some { min_value := 1, max_value := 1 }, some { min_value := -1, max_value := -1 }, none, none, none], none, none], [none, none, none, none]] }

def PA_S2 : AState :=
  { inst_to_ranges := [some [some { min_value := -2147483648, max_value := 2147483647 }, none, none, none, none, none, none, none, none, none, none], some [some { min_value := 1, max_value := 1 }, none, none, none, none, none, none, none, none, none, none], none, some [some { min_value := -2147483648, max_value := 1 }, none, none, some { min_value := -2147483648, max_value := 1 }, none, none, none, none, none, none, none], some [some { min_value := -2147483648, max_value := 1 }, none, none, some { min_value := -2147483648, max_value := 1 }, none, none, none, none, none, none, none], none, some [some { min_value := -2147483648, max_value := 1 }, none, none, some { min_value := -2147483648, max_value := 1 }, none, none, some { min_value := -2147483648, max_value := 1 }, none, none, none, none], some [some { min_value := -2147483648, max_value := 1 }, none, none, some { min_value := -2147483648, max_value := 1 }, none, none, some { min_value := -2147483648, max_value := 1 }, some { min_value := -1, max_value := 2147483647 }, none, none, none], some [some { min_value := -1, max_value := 2147483647 }, none, none, some { min_value := -2147483648, max_value := 1 }, none, none, some { min_value := -2147483648, max_value := 1 }, some { min_value := -1, max_value := 2147483647 }, none, none, none], none, none], bb_before := [some [none, none, none, none, none, none, none, none, none, none, none], some [some { min_value := -1, max_value := 1 }, none, none, none, none, none, none, none, none, none, none], some [some { min_value := -2147483648, max_value := 1 }, none, none, some { min_value := -2147483648, max_value := 1 }, none, none, none, none, none, none, none], none], edges := [[none, some [some { min_value := 1, max_value := 1 }, none, none, none, none, none, none, none, none, none, none], none, none], [none, none, some [some { min_value := -2147483648, max_value := 1 }, none, none, some { min_value := -2147483648, max_value := 1 }, none, none, none, none, none, none, none], none], [none, some [some { min_value := -1, max_value := 2147483647 }, none, none, some { min_value := -2147483648, max_value := 1 }, none, none, some { min_value := -2147483648, max_value := 1 }, some { min_value := -1, max_value := 2147483647 }, none, none, none], none, none], [none, none, none, none]] }

def PA_S3 : AState :=
  { inst_to_ranges := [some [some { min_value := -2147483648, max_value := 2147483647 }, none, none, none, none, none, none, none, none, none, none], some [some { min_value := 1, max_value := 1 }, none, none, none, none, none, none, none, none, none, none], none, some [some { min_value := -1, max_value := 2147483647 }, none, none, some { min_value := -1, max_value := 2147483647 }, none, none, none, none, none, none, none], some [some { min_value := -1, max_value := 2147483647 }, none, none, some { min_value := -1, max_value := 2147483647 }, none, none, none, none, none, none, none], none, some [some { min_value := -1, max_value := 2147483647 }, none, none, some { min_value := -1, max_value := 2147483647 }, none, none, some { min_value := -1, max_value := 2147483647 }, none, none, none, none], some [some { min_value := -1, max_value := 2147483647 }, none, none, some { min_value := -1, max_value := 2147483647 }, none, none, some { min_value := -1, max_value := 2147483647 }, some { min_value := -2147483648, max_value := 1 }, none, none, none], some [some { min_value := -2147483648, max_value := 1 }, none, none, some { min_value := -1, max_value := 2147483647 }, none, none, some { min_value := -1, max_value := 2147483647 }, some { min_value := -2147483648, max_value := 1 }, none, none, none], none, some [some { min_value := 10, max_value := 2147483647 }, none, none, some { min_value := -1, max_value := 2147483647 }, none, none, none, none, none, none, none]], bb_before := [some [none, none, none, none, none, none, none, none, none, none, none], some [some { min_value := -1, max_value := 2147483647 }, none, none, none, none, none, none, none, none, none, none], some [some { min_value := -1, max_value := 9 }, none, none, some { min_value := -1, max_value := 2147483647 }, none, none, none, none, none, none, none], some [some { min_value := 10, max_value := 2147483647 }, none, none, some { min_value := -1, max_value := 2147483647 }, none, none, none, none, none, none, none]], edges := [[none, some [some { min_value := 1, max_value := 1 }, none, none, none, none, none, none, none, none, none, none], none, none], [none, none, some [some { min_value := -1, max_value := 9 }, none, none, some { min_value := -1, max_value := 2147483647 }, none, none, none, none, none, none, none], some [some { min_value := 10, max_value := 2147483647 }, none, none, some { min_value := -1, max_value := 2147483647 }, none, none, none, none, none, none, none]], [none, some [some { min_value := -2147483648, max_value := 1 }, none, none, some { min_value := -1, max_value := 2147483647 }, none, none, some { min_value := -1, max_value := 2147483647 }, some { min_value := -2147483648, max_value := 1 }, none, none, none], none, none], [none, none, none, none]] }

def PA_S4 : AState :=
  { inst_to_ranges := [some [some { min_value := -2147483648, max_value := 2147483647 }, none, none, none, none, none, none, none, none, none, none], some [some { min_value := 1, max_value := 1 }, none, none, none, none, none, none, none, none, none, none], none, some [some { min_value := -2147483648, max_value := 1 }, none, none, some { min_value := -2147483648, max_value := 1 }, none, none, none, none, none, none, none], some [some { min_value := -2147483648, max_value := 1 }, none, none, some { min_value := -2147483648, max_value := 1 }, none, none, none, none, none, none, none], none, some [some { min_value := -2147483648, max_value := 1 }, none, none, some { min_value := -2147483648, max_value := 1 }, none, none, some { min_value := -2147483648, max_value := 1 }, none, none, none, none], some [some { min_value := -2147483648, max_value := 1 }, none, none, some { min_value := -2147483648, max_value := 1 }, none, none, some { min_value := -2147483648, max_value := 1 }, some { min_value := -1, max_value := 2147483647 }, none, none, none], some [some { min_value := -1, max_value := 2147483647 }, none, none, some { min_value := -2147483648, max_value := 1 }, none, none, some { min_value := -2147483648, max_value := 1 }, some { min_value := -1, max_value := 2147483647 }, none, none, none], none, some [some { min_value := 10, max_value := 2147483647 }, none, none, some { min_value := -1, max_value := 2147483647 }, none, none, none, none, none, none, none]], bb_before := [some [none, none, none, none, none, none, none, none, none, none, none], some [some { min_value := -2147483648, max_value := 1 }, none, none, none, none, none, none, none, none, none, none], some [some { min_value := -2147483648, max_value := 1 }, none, none, some { min_value := -2147483648, max_value := 1 }, none, none, none, none, none, none, none], some [some { min_value := 10, max_value := 2147483647 }, none, none, some { min_value := -1, max_value := 2147483647 }, none, none, none, none, none, none, none]], edges := [[none, some [some { min_value := 1, max_value := 1 }, none, none, none, none, none, none, none, none, none, none], none, none], [none, none, some [some { min_value := -2147483648, max_value := 1 }, none, none, some { min_value := -2147483648, max_value := 1 }, none, none, none, none, none, none, none], some [some { min_value := 10, max_value := 2147483647 }, none, none, some { min_value := -1, max_value := 2147483647 }, none, none, none, none, none, none, none]], [none, some [some { min_value := -1, max_value := 2147483647 }, none, none, some { min_value := -2147483648, max_value := 1 }, none, none, some { min_value := -2147483648, max_value := 1 }, some { min_value := -1, max_value := 2147483647 }, none, none, none], none, none], [none, none, none, none]] }

/-! ## Helper lemmas -/

theorem iteratePasses_step_true (F : IRFunc) (fuel : Nat) (st st2 : AState)
    (h : onePass F st = some (st2, true)) :
    iteratePasses F (fuel + 1) st = iteratePasses F fuel st2 := by
  simp [iteratePasses, h]

theorem iteratePasses_done (F : IRFunc) (fuel : Nat) (st st2 : AState)
    (h : onePass F st = some (st2, false)) :
    iteratePasses F (fuel + 1) st = some st2 := by
  simp [iteratePasses, h]

theorem runNPasses_succ (F : IRFunc) (n : Nat) :
    runNPasses F (n + 1) = (runNPasses F n).bind (fun p => onePass F p.1) := rfl

theorem runNPasses_zero (F : IRFunc) : runNPasses F 0 = some (initState F, true) := rfl

theorem PS_p1 : onePass PstaleStore (initState PstaleStore) = some (PS_S1, true) := by
  decide

theorem PS_p2 : onePass PstaleStore PS_S1 = some (PS_S1, false) := by
  decide

theorem PU_p1 : onePass PloopUnknown (initState PloopUnknown) = some (PU_S1, true) := by
  decide

theorem PU_p2 : onePass PloopUnknown PU_S1 = some (PU_S2, true) := by
  decide

theorem PU_p3 : onePass PloopUnknown PU_S2 = some (PU_S3, true) := by
  decide

theorem PU_p4 : onePass PloopUnknown PU_S3 = some (PU_S3, false) := by
  decide

theorem PL_p1 : onePass PloopLit (initState PloopLit) = some (PL_S1, true) := by
  decide

theorem PL_p2 : onePass PloopLit PL_S1 = some (PL_S2, true) := by
  decide

theorem PL_p3 : onePass PloopLit PL_S2 = some (PL_S3, true) := by
  decide

theorem PL_p4 : onePass PloopLit PL_S3 = some (PL_S4, true) := by
  decide

theorem PL_p5 : onePass PloopLit PL_S4 = some (PL_S4, false) := by
  decide

theorem PA_p1 : onePass Palternate (initState Palternate) = some (PA_S1, true) := by
  decide

theorem PA_p2 : onePass Palternate PA_S1 = some (PA_S2, true) := by
  decide

theorem PA_p3 : onePass Palternate PA_S2 = some (PA_S3, true) := by
  decide

theorem PA_p4 : onePass Palternate PA_S3 = some (PA_S4, true) := by
  decide

theorem PA_p5 : onePass Palternate PA_S4 = some (PA_S3, true) := by
  decide

theorem PS_fix : iteratePasses PstaleStore 20 (initState PstaleStore) = some PS_S1 := by
  show iteratePasses PstaleStore (19 + 1) (initState PstaleStore) = some PS_S1
  rw [iteratePasses_step_true _ _ _ _ PS_p1]
  show iteratePasses PstaleStore (18 + 1) PS_S1 = some PS_S1
  exact iteratePasses_done _ _ _ _ PS_p2

theorem PS_analyze : analyze PstaleStore 20 = some (PS_S1, []) := by
  have hc : checkArrayBounds PstaleStore PS_S1 = some [] := by decide
  simp [analyze, PS_fix, hc]

theorem PU_fix : iteratePasses PloopUnknown 20 (initState PloopUnknown) = some PU_S3 := by
  show iteratePasses PloopUnknown (19 + 1) (initState PloopUnknown) = some PU_S3
  rw [iteratePasses_step_true _ _ _ _ PU_p1]
  show iteratePasses PloopUnknown (18 + 1) PU_S1 = some PU_S3
  rw [iteratePasses_step_true _ _ _ _ PU_p2]
  show iteratePasses PloopUnknown (17 + 1) PU_S2 = some PU_S3
  rw [iteratePasses_step_true _ _ _ _ PU_p3]
  show iteratePasses PloopUnknown (16 + 1) PU_S3 = some PU_S3
  exact iteratePasses_done _ _ _ _ PU_p4

theorem PU_analyze : analyze PloopUnknown 20 = some (PU_S3, []) := by
  have hc : checkArrayBounds PloopUnknown PU_S3 = some [] := by decide
  simp [analyze, PU_fix, hc]

theorem PL_fix : iteratePasses PloopLit 20 (initState PloopLit) = some PL_S4 := by
  show iteratePasses PloopLit (19 + 1) (initState PloopLit) = some PL_S4
  rw [iteratePasses_step_true _ _ _ _ PL_p1]
  show iteratePasses PloopLit (18 + 1) PL_S1 = some PL_S4
  rw [iteratePasses_step_true _ _ _ _ PL_p2]
  show iteratePasses PloopLit (17 + 1) PL_S2 = some PL_S4
  rw [iteratePasses_step_true _ _ _ _ PL_p3]
  show iteratePasses PloopLit (16 + 1) PL_S3 = some PL_S4
  rw [iteratePasses_step_true _ _ _ _ PL_p4]
  show iteratePasses PloopLit (15 + 1) PL_S4 = some PL_S4
  exact iteratePasses_done _ _ _ _ PL_p5

theorem PL_analyze : analyze PloopLit 20 = some (PL_S4, []) := by
  have hc : checkArrayBounds PloopLit PL_S4 = some [] := by decide
  simp [analyze, PL_fix, hc]

theorem PA_R1 : runNPasses Palternate 1 = some (PA_S1, true) := by
  rw [show (1 : Nat) = 0 + 1 from rfl, runNPasses_succ, runNPasses_zero]
  simpa using PA_p1

theorem PA_R2 : runNPasses Palternate 2 = some (PA_S2, true) := by
  rw [show (2 : Nat) = 1 + 1 from rfl, runNPasses_succ, PA_R1]
  simpa using PA_p2

theorem PA_R3 : runNPasses Palternate 3 = some (PA_S3, true) := by
  rw [show (3 : Nat) = 2 + 1 from rfl, runNPasses_succ, PA_R2]
  simpa using PA_p3

theorem PA_R4 : runNPasses Palternate 4 = some (PA_S4, true) := by
  rw [show (4 : Nat) = 3 + 1 from rfl, runNPasses_succ, PA_R3]
  simpa using PA_p4

theorem PA_R5 : runNPasses Palternate 5 = some (PA_S3, true) := by
  rw [show (5 : Nat) = 4 + 1 from rfl, runNPasses_succ, PA_R4]
  simpa using PA_p5

theorem PA_periodic (n : Nat) :
    runNPasses Palternate (n + 5) = runNPasses Palternate (n + 3) := by
  induction n with
  | zero =>
      show runNPasses Palternate 5 = runNPasses Palternate 3
      rw [PA_R5, PA_R3]
  | succ k ih =>
      show runNPasses Palternate (k + 5 + 1) = runNPasses Palternate (k + 3 + 1)
      rw [runNPasses_succ Palternate (k + 5), runNPasses_succ Palternate (k + 3), ih]

/-! ## Claims -/

/-- C1: the soundness invariant fails on the code.  On `PstaleStore`
(`s = alloca; store 0 s; x = load s; store 100 s; if (x < 10) y = load s`)
the converged analysis records the interval [0, 0] for the tracked value
`y` (instruction 6) at its program point, because `handleICMP` writes the
stale refined range of the load `x` back into the slot `s` although `s`
was overwritten after the load; yet the (unique, overflow-free) concrete
execution reaches that point with `y = 100`, and 100 does not lie in
[0, 0]. -/
theorem C1_analysis_unsound_on_stale_load :
    instRangeOf PstaleStore 20 6 6 = some { min_value := 0, max_value := 0 } ∧
    ((cexecTrace PstaleStore 20).getD []).any
      (fun p => p.1 == 6 && p.2.regs.getD 6 none == some 100) = true ∧
    ¬((0 : Int) ≤ 100 ∧ (100 : Int) ≤ 0) := by
  refine ⟨?_, by decide, by decide⟩
  unfold instRangeOf
  rw [PS_analyze]
  decide

/-- C2 (counterexample): equality refinement does not produce the claimed
intersection.  At x = [5, 10], y = [0, 20] the code returns lower bound 0,
not max(5, 0) = 5; and at x = [0, 3], y = [5, 10], whose intersection is
empty, the code reports the refinement feasible. -/
theorem C2_equalRange_claim_refuted :
    (equalRange { min_value := 5, max_value := 10 }
        { min_value := 0, max_value := 20 }).1.min_value ≠ max (5 : Int) 0 ∧
    (equalRange { min_value := 0, max_value := 3 }
        { min_value := 5, max_value := 10 }).2 = true ∧
    min (3 : Int) 10 < max (0 : Int) 5 := by
  decide

/-- C2 (amended): refining under x == y computes
[min(y.lo, min(y.hi, x.hi)), min(y.hi, x.hi)] when min(y.hi, x.hi) ≥ x.lo
and reports infeasible exactly otherwise (that is, exactly when
y.hi < x.lo); `handleICMP` assigns this single interval to both sides in
the true branch. -/
theorem C2_equalRange_code_behavior (x y : VariableRange) :
    (x.min_value ≤ min y.max_value x.max_value →
      equalRange x y =
        ({ min_value := min y.min_value (min y.max_value x.max_value),
           max_value := min y.max_value x.max_value }, true)) ∧
    (min y.max_value x.max_value < x.min_value →
      equalRange x y = ({ min_value := INT_MAX, max_value := INT_MAX }, false)) ∧
    refineForPred ICmpPred.peq x y =
      { if_lhs := (equalRange x y).1, if_rhs := (equalRange x y).1,
        else_lhs := x, else_rhs := y,
        if_reachable := (equalRange x y).2, else_reachable := true } := by
  refine ⟨?_, ?_, rfl⟩
  · intro h
    simp only [equalRange, lessEqualRange, greaterEqualRange, validate]
    split_ifs with h1 h2 <;> simp_all
  · intro h
    simp only [equalRange, lessEqualRange, validate]
    split_ifs with h1 <;> simp_all
    omega

theorem C2_equalRange_code_behavior_witness :
    equalRange { min_value := 5, max_value := 10 } { min_value := 0, max_value := 20 }
      = ({ min_value := 0, max_value := 10 }, true) := by
  have h := (C2_equalRange_code_behavior { min_value := 5, max_value := 10 }
    { min_value := 0, max_value := 20 }).1 (by decide)
  rw [h]
  decide

/-- C3 (counterexample): the strict-less refinement does not compute the
claimed right-hand interval.  At L = [0, 5], R = [10, 20] the code refines
R to [1, 20] (via `min(L.lo + 1, R.hi)`), not to
[max(R.lo, L'.lo + 1), R.hi] = [10, 20]; in particular the refined right
side is not contained in R. -/
theorem C3_sltRefine_claim_refuted :
    (refineForPred ICmpPred.pslt { min_value := 0, max_value := 5 }
        { min_value := 10, max_value := 20 }).if_rhs
      = { min_value := 1, max_value := 20 } ∧
    ({ min_value := 1, max_value := 20 } : VariableRange)
      ≠ { min_value := max 10 (0 + 1), max_value := 20 } ∧
    (refineForPred ICmpPred.pslt { min_value := 0, max_value := 5 }
        { min_value := 10, max_value := 20 }).if_rhs.min_value < 10 := by
  decide

/-- C3 (amended): refining under L < R yields
L' = [L.lo, min(R.hi - 1, L.hi)] (contained in L) and
R' = [min(L.lo + 1, R.hi), R.hi] (which may extend below R.lo), and the
true edge is reported infeasible exactly when L' has lo > hi — the
right-hand refinement `greaterRange` never fails. -/
theorem C3_sltRefine_code_behavior (L R : VariableRange) :
    (L.min_value ≤ min (R.max_value - 1) L.max_value →
      (refineForPred ICmpPred.pslt L R).if_lhs =
          { min_value := L.min_value, max_value := min (R.max_value - 1) L.max_value } ∧
        (refineForPred ICmpPred.pslt L R).if_rhs =
          { min_value := min (L.min_value + 1) R.max_value, max_value := R.max_value } ∧
        (refineForPred ICmpPred.pslt L R).if_reachable = true) ∧
    (min (R.max_value - 1) L.max_value < L.min_value →
      (refineForPred ICmpPred.pslt L R).if_reachable = false) ∧
    (L.min_value ≤ min (R.max_value - 1) L.max_value →
      L.min_value ≤ (refineForPred ICmpPred.pslt L R).if_lhs.min_value ∧
      (refineForPred ICmpPred.pslt L R).if_lhs.max_value ≤ L.max_value) := by
  refine ⟨?_, ?_, ?_⟩
  · intro h
    simp only [refineForPred, lessRange, greaterRange, validate]
    split_ifs with h1 h2 <;> simp_all
  · intro h
    simp only [refineForPred, lessRange, greaterRange, validate]
    split_ifs with h1 <;> simp_all
    omega
  · intro h
    simp only [refineForPred, lessRange, greaterRange, validate]
    split_ifs with h1 h2 <;> simp_all

theorem C3_sltRefine_code_behavior_witness :
    (refineForPred ICmpPred.pslt { min_value := 0, max_value := 5 }
        { min_value := 10, max_value := 20 }).if_lhs
      = { min_value := 0, max_value := 5 } ∧
    (refineForPred ICmpPred.pslt { min_value := 0, max_value := 5 }
        { min_value := 10, max_value := 20 }).if_reachable = true := by
  have h := (C3_sltRefine_code_behavior { min_value := 0, max_value := 5 }
      { min_value := 10, max_value := 20 }).1 (by decide)
  refine ⟨?_, h.2.2⟩
  rw [h.1]
  decide

/-- C4: when the divisor interval straddles both -1 and +1, the source's
`else if` skips the corners against divisor +1: for dividend [5, 10] and
divisor [-5, 5] (which straddles +1, since -5 < 1 < 5) the code returns
[-10, 2], although 10 / 1 = 10 is an attainable quotient, so the claimed
evaluation of the +1 corners did not happen (and the resulting interval
excludes an attainable value). -/
theorem C4_div_straddle_both_misses_plus_one :
    checkAllCombinations { min_value := 5, max_value := 10 }
        { min_value := -5, max_value := 5 } ArithOp.div
      = { min_value := -10, max_value := 2 } ∧
    ((-5 : Int) < 1 ∧ (1 : Int) < 5) ∧
    checkUnderOverFlow 10 1 ArithOp.div = 10 ∧
    ¬((-10 : Int) ≤ 10 ∧ (10 : Int) ≤ 2) := by
  decide

/-- C5 (counterexample): on the widening scenario with an opaque bound
(`for (int i = 0; i < N; ++i) a[i];`, `N` loaded from an opaque call) the
converged analysis emits no diagnostic at all: the index interval at the
access still contains in-bounds values, and `outOfRange` only reports
intervals entirely outside the array. -/
theorem C5_no_diagnostic_for_unknown_bound :
    diagsOf PloopUnknown 20 = some [] := by
  unfold diagsOf
  rw [PU_analyze]
  rfl

/-- C5 (amended): with the opaque bound, widening drives `i` to
[0, INT_MAX] at the loop-condition load (instruction 7); at the body load
feeding the access (instruction 11) the branch-refined interval is
[0, INT_MAX - 1]; no diagnostic is emitted for the access, and with the
literal bound 30 and a 30-element array no diagnostic is emitted either. -/
theorem C5_widening_loop_behavior :
    instRangeOf PloopUnknown 20 7 1 = some { min_value := 0, max_value := INT_MAX } ∧
    instRangeOf PloopUnknown 20 11 1
      = some { min_value := 0, max_value := INT_MAX - 1 } ∧
    instRangeOf PloopUnknown 20 11 11
      = some { min_value := 0, max_value := INT_MAX - 1 } ∧
    diagsOf PloopUnknown 20 = some [] ∧
    diagsOf PloopLit 20 = some [] := by
  refine ⟨?_, ?_, ?_, ?_, ?_⟩
  · unfold instRangeOf
    rw [PU_analyze]
    decide
  · unfold instRangeOf
    rw [PU_analyze]
    decide
  · unfold instRangeOf
    rw [PU_analyze]
    decide
  · unfold diagsOf
    rw [PU_analyze]
    rfl
  · unfold diagsOf
    rw [PL_analyze]
    rfl

/-- C6: the outer fixed-point loop does not terminate on every input
function.  On `Palternate` (`int i = 1; while (i < 10) i = -i;`) every
pass reports a change: the pass states cycle with period 2 (the state
after pass 5 equals the state after pass 3), because widening saturates a
grown bound but a later shrunken map is reinstalled verbatim.  The C++
`while (changed)` loop therefore never exits. -/
theorem C6_fixed_point_loop_diverges :
    ∀ n : Nat, (runNPasses Palternate (n + 1)).map Prod.snd = some true := by
  have flag : ∀ m : Nat, 1 ≤ m → m ≤ 5 →
      (runNPasses Palternate m).map Prod.snd = some true := by
    intro m h1 h5
    interval_cases m
    · rw [PA_R1]; rfl
    · rw [PA_R2]; rfl
    · rw [PA_R3]; rfl
    · rw [PA_R4]; rfl
    · rw [PA_R5]; rfl
  intro n
  induction n using Nat.strong_induction_on with
  | _ n ih =>
      by_cases h : n + 1 ≤ 5
      · exact flag (n + 1) (by omega) h
      · have e : n + 1 = (n - 4) + 5 := by omega
        rw [e, PA_periodic (n - 4)]
        have e2 : n - 4 + 3 = (n - 2) + 1 := by omega
        rw [e2]
        exact ih (n - 2) (by omega)

/-- C7: the merge-join `intersectRanges` keeps exactly the keys present in
both maps, maps every shared key to the hull
[min(lo, lo), max(hi, hi)] (`unionRange`), and the hull contains both
arguments pointwise. -/
theorem C7_intersectRanges_join_hull :
    (∀ (A B : Ranges) (k : Nat),
      rlookup (intersectRanges A B) k =
        (rlookup A k).bind (fun a => (rlookup B k).map (fun b => unionRange a b))) ∧
    (∀ a b : VariableRange,
      (unionRange a b).min_value ≤ a.min_value ∧
      a.max_value ≤ (unionRange a b).max_value ∧
      (unionRange a b).min_value ≤ b.min_value ∧
      b.max_value ≤ (unionRange a b).max_value) := by
  constructor
  · intro A B k
    induction A generalizing B k with
    | nil => cases B <;> simp [intersectRanges, rlookup]
    | cons a as ih =>
        cases B with
        | nil => simp [intersectRanges, rlookup]
        | cons b bs =>
            cases k with
            | zero => cases a <;> cases b <;> simp [intersectRanges, rlookup]
            | succ k2 => simpa [intersectRanges, rlookup] using ih bs k2
  · intro a b
    simp only [unionRange]
    refine ⟨?_, ?_, ?_, ?_⟩ <;> omega

/-- C8: `divRanges` aborts exactly when the divisor interval is precisely
[0, 0] (the biconditional); for every divisor interval containing 0 but
different from [0, 0] it does not abort and returns the corner scan,
inside which every corner sampled with divisor 0 evaluates to the
dividend (x / 0 = x in `checkUnderOverFlow`). -/
theorem C8_div_by_zero_handling (lhs rhs : VariableRange) :
    (divRanges lhs rhs = none ↔ rhs.min_value = 0 ∧ rhs.max_value = 0) ∧
    (rhs.min_value ≤ 0 → 0 ≤ rhs.max_value →
      ¬(rhs.min_value = 0 ∧ rhs.max_value = 0) →
      divRanges lhs rhs = some (checkAllCombinations lhs rhs ArithOp.div)) ∧
    ∀ x : Int, checkUnderOverFlow x 0 ArithOp.div = x := by
  refine ⟨?_, ?_, ?_⟩
  · unfold divRanges
    split_ifs with h <;> simp [h]
  · intro h0 h1 hne
    simp [divRanges, hne]
  · intro x
    simp [checkUnderOverFlow]

theorem C8_div_by_zero_handling_witness :
    divRanges { min_value := 3, max_value := 7 } { min_value := 0, max_value := 0 }
      = none ∧
    divRanges { min_value := 3, max_value := 7 } { min_value := 0, max_value := 4 }
      = some (checkAllCombinations { min_value := 3, max_value := 7 }
          { min_value := 0, max_value := 4 } ArithOp.div) ∧
    checkUnderOverFlow 7 0 ArithOp.div = 7 := by
  refine ⟨?_, ?_, ?_⟩
  · exact (C8_div_by_zero_handling { min_value := 3, max_value := 7 }
      { min_value := 0, max_value := 0 }).1.mpr (by decide)
  · exact (C8_div_by_zero_handling { min_value := 3, max_value := 7 }
      { min_value := 0, max_value := 4 }).2.1 (by decide) (by decide) (by decide)
  · exact (C8_div_by_zero_handling { min_value := 3, max_value := 7 }
      { min_value := 0, max_value := 4 }).2.2 7

/-- C9 (counterexample): `handleLoad` on an untracked pointer operand does
not assign the full interval — it aborts (the assertion
`ranges.count(load->getPointerOperand())` fails), so the claimed
"R[I] := top, no abort" behavior is refuted on the two-value map with
both keys absent. -/
theorem C9_handleLoad_claim_refuted :
    handleLoad [none, none] 1 0 = none ∧
    handleLoad [none, none] 1 0 ≠
      some (rset [none, none] 1 { min_value := INT_MIN, max_value := INT_MAX }) := by
  decide

/-- C9 (amended): the load transfer copies the pointer's interval to the
loaded value when the pointer is tracked, and aborts (assertion failure)
when it is untracked — equivalently, it is the `Option.map` of the
pointer lookup. -/
theorem C9_handleLoad_code_behavior (ranges : Ranges) (instId ptr : Nat) :
    handleLoad ranges instId ptr =
      (rlookup ranges ptr).map (fun r => rset ranges instId r) := by
  unfold handleLoad
  cases rlookup ranges ptr <;> simp

/-- C10: for array size n ≥ 1 and a valid interval [lo, hi], the checker
predicate `outOfRange` is true exactly when [lo, hi] is disjoint from
[0, n - 1]; an interval containing one in-bounds value never triggers a
diagnostic. -/
theorem C10_outOfRange_iff_disjoint (lo hi n : Int) (hn : 1 ≤ n) (hv : lo ≤ hi) :
    outOfRange { min_value := lo, max_value := hi } n = true ↔
      ¬∃ k : Int, lo ≤ k ∧ k ≤ hi ∧ 0 ≤ k ∧ k ≤ n - 1 := by
  have hb : outOfRange { min_value := lo, max_value := hi } n = true ↔
      hi < 0 ∨ n ≤ lo := by
    simp only [outOfRange]
    split_ifs with h1 h2 <;> simp_all <;> omega
  rw [hb]
  constructor
  · rintro h ⟨k, hk1, hk2, hk3, hk4⟩
    omega
  · intro h
    by_contra hc
    push_neg at hc
    rcases le_or_lt lo 0 with hl | hl
    · exact h ⟨0, by omega, by omega, by omega, by omega⟩
    · exact h ⟨lo, by omega, by omega, by omega, by omega⟩

theorem C10_outOfRange_iff_disjoint_witness :
    outOfRange { min_value := -5, max_value := 50 } 30 = false := by
  have h := C10_outOfRange_iff_disjoint (-5) 50 30 (by norm_num) (by norm_num)
  have hex : ∃ k : Int, -5 ≤ k ∧ k ≤ 50 ∧ 0 ≤ k ∧ k ≤ 30 - 1 := ⟨0, by norm_num⟩
  rcases Bool.eq_false_or_eq_true
      (outOfRange { min_value := -5, max_value := 50 } 30) with ht | hf
  · exact absurd hex (h.mp ht)
  · exact hf
